import Mathlib

/-!
Verification development for the pvxarray lazy mesh-generation pipeline.

The Python modules `pvxarray/cf.py`, `pvxarray/accessor.py`,
`pvxarray/rectilinear.py`, `pvxarray/structured.py`, `pvxarray/points.py`
and `pvxarray/vtk_source.py` are shallowly embedded below.  Numeric
array values are modelled as exact rationals (ℚ); numpy ndarrays are a
shape together with a row-major flat value list; fallible Python code
(raised exceptions) is modelled with `Except String`.  External
collaborators (the pyvista mesh containers, the VTK array calculator,
user-supplied pipeline filters) are modelled by their documented
contracts: the mesh container stores settable axis coordinate arrays /
point buffers plus name-indexed value arrays, the calculator is an
arbitrary total function parameter, pipeline filters are the stored
functions themselves.
-/

set_option autoImplicit false

namespace PvXarray

deriving instance DecidableEq for Except

/-! ## Numpy ndarray model -/

/-- A numpy ndarray: a shape and the row-major (C-order) flat list of
values.  Well-formed arrays satisfy `flat.length = shape.prod`. -/
structure NDArray where
  shape : List Nat
  flat  : List ℚ
  deriving Repr, DecidableEq

namespace NDArray

def ndim (a : NDArray) : Nat := a.shape.length

def size (a : NDArray) : Nat := a.shape.prod

/-- Well-formedness: the flat buffer has exactly `prod shape` entries. -/
def wf (a : NDArray) : Prop := a.flat.length = a.shape.prod

instance (a : NDArray) : Decidable a.wf := by
  unfold wf; infer_instance

end NDArray

/-- Fuel-driven helper for `chunkExact` (structural recursion on the
fuel keeps the definition kernel-reducible). -/
def chunkExactAux {α : Type} (n : Nat) : Nat → List α → List (List α)
  | _, [] => []
  | 0, _ :: _ => []
  | fuel + 1, x :: xs =>
    if n = 0 then []
    else ((x :: xs).take n) :: chunkExactAux n fuel ((x :: xs).drop n)

/-- Split a list into consecutive chunks of size `n` (a zero chunk size
yields no chunks, which only occurs for zero-size arrays). -/
def chunkExact {α : Type} (n : Nat) (l : List α) : List (List α) :=
  chunkExactAux n l.length l

/-- All multi-indices of a shape in C (row-major) order. -/
def allIndicesC : List Nat → List (List Nat)
  | [] => [[]]
  | s :: rest => ((List.range s).map fun i => (allIndicesC rest).map fun ix => i :: ix).flatten

/-- Row-major linear index of a multi-index. -/
def cIndex : List Nat → List Nat → Nat
  | _, [] => 0
  | sh, i :: is => i * (sh.drop 1).prod + cIndex (sh.drop 1) is

namespace NDArray

/-- `a.ravel(order="F")`: Fortran-order flattening (first axis fastest). -/
def ravelF (a : NDArray) : List ℚ :=
  (allIndicesC a.shape.reverse).map fun ix => a.flat.getD (cIndex a.shape ix.reverse) 0

/-- `a.ravel(order=order)` for the two orders the package passes. -/
def ravelPy (order : String) (a : NDArray) : List ℚ :=
  if order = "F" then a.ravelF else a.flat

/-- `np.transpose` by an axis permutation: new axis `p` is old axis `perm[p]`. -/
def transposePerm (perm : List Nat) (a : NDArray) : NDArray :=
  let sh' := perm.map fun p => a.shape.getD p 0
  let flat' := (allIndicesC sh').map fun ix =>
    let old := (List.range a.shape.length).map fun j => ix.getD (perm.findIdx (· == j)) 0
    a.flat.getD (cIndex a.shape old) 0
  ⟨sh', flat'⟩

/-- `values.reshape((-1, k), order=order)`: stream the elements of the
array in the given order and refill an `(n, k)` array in that order. -/
def reshape2 (order : String) (k : Nat) (a : NDArray) : NDArray :=
  let stream := a.ravelPy order
  let n := if k = 0 then 0 else a.size / k
  if order = "F" then
    ⟨[n, k], (allIndicesC [n, k]).map fun ix => stream.getD (ix.getD 0 0 + ix.getD 1 0 * n) 0⟩
  else ⟨[n, k], stream⟩

/-- Product of the trailing dims after axis `i` (size of one inner block). -/
def innerSize (sh : List Nat) (i : Nat) : Nat := (sh.drop (i + 1)).prod

/-- Select the given positions along axis `i` (the common core of basic
integer and strided-slice indexing). -/
def takeAxis (a : NDArray) (i : Nat) (idxs : List Nat) : NDArray :=
  let inner := innerSize a.shape i
  let mid := a.shape.getD i 0
  let blocks := chunkExact (mid * inner) a.flat
  let flat' := (blocks.map fun blk =>
    (idxs.map fun j => ((blk.drop (j * inner)).take inner)).flatten).flatten
  ⟨a.shape.set i idxs.length, flat'⟩

/-- Python basic integer indexing along axis `i` (negative indices wrap,
out-of-range raises, the axis is removed). -/
def indexAxisPy (a : NDArray) (i : Nat) (k : ℤ) : Except String NDArray :=
  let mid := a.shape.getD i 0
  let k' : ℤ := if k < 0 then k + mid else k
  if 0 ≤ k' ∧ k' < (mid : ℤ) then
    .ok ⟨a.shape.eraseIdx i, (a.takeAxis i [k'.toNat]).flat⟩
  else .error "IndexError: index out of bounds"

end NDArray

/-- Kernel-reducible minimum on ℤ. -/
def imin (a b : ℤ) : ℤ := if a ≤ b then a else b

/-- Kernel-reducible maximum on ℤ. -/
def imax (a b : ℤ) : ℤ := if a ≤ b then b else a

/-- The positions selected by the Python slice `start:stop:step` on a
sequence of length `len` (CPython `slice.indices` semantics). -/
def pySliceIdxs (len : Nat) (start stop step : ℤ) : Except String (List Nat) :=
  if step = 0 then .error "ValueError: slice step cannot be zero"
  else if 0 < step then
    let lo : ℤ := if start < 0 then imax (start + len) 0 else imin start len
    let hi : ℤ := if stop < 0 then imax (stop + len) 0 else imin stop len
    .ok ((List.range len).filter fun j =>
      decide (lo ≤ (j : ℤ) ∧ (j : ℤ) < hi ∧ ((j : ℤ) - lo) % step = 0))
  else
    let lo : ℤ := if start < 0 then imax (start + len) (-1) else imin start ((len : ℤ) - 1)
    let hi : ℤ := if stop < 0 then imax (stop + len) (-1) else imin stop ((len : ℤ) - 1)
    .ok (((List.range len).filter fun (j : Nat) =>
      decide (hi < (j : ℤ) ∧ (j : ℤ) ≤ lo ∧ (lo - (j : ℤ)) % (-step) = 0)).reverse)

/-- The positions selected by `[::k]` (both bounds omitted). -/
def strideIdxs (len : Nat) (k : ℤ) : Except String (List Nat) :=
  if 0 < k then pySliceIdxs len 0 len k
  else pySliceIdxs len ((len : ℤ) - 1) (-(len : ℤ) - 1) k

namespace NDArray

/-- Strided-slice indexing `a[start:stop:step]` along axis `i`. -/
def sliceAxisPy (a : NDArray) (i : Nat) (start stop step : ℤ) : Except String NDArray := do
  let idxs ← pySliceIdxs (a.shape.getD i 0) start stop step
  .ok (a.takeAxis i idxs)

/-- Strided slice `a[::k]` along axis `i`. -/
def strideAxisPy (a : NDArray) (i : Nat) (k : ℤ) : Except String NDArray := do
  let idxs ← strideIdxs (a.shape.getD i 0) k
  .ok (a.takeAxis i idxs)

end NDArray

/-! ## Labeled arrays (xarray DataArray model) -/

/-- The coordinate metadata the CF detector reads (`attrs` dict access
with a default of `""`, modelled as `Option String`). -/
structure CoordAttrs where
  axis : Option String
  standard_name : Option String
  units : Option String
  deriving Repr, DecidableEq

/-- A coordinate variable: its dimension names, its values, whether its
dtype is numeric, and its CF attributes. -/
structure Coord where
  dims : List String
  arr : NDArray
  numeric : Bool
  attrs : CoordAttrs
  deriving Repr, DecidableEq

/-- An xarray DataArray: optional name, dimension names, values and the
coordinate mapping (a name-keyed insertion-ordered dict). -/
structure DataArray where
  name : Option String
  dims : List String
  arr : NDArray
  coords : List (String × Coord)
  deriving Repr, DecidableEq

/-- One `isel` selection: an integer index, an explicit
`slice(start, stop, step)`, or a bare-stride slice `[::k]`. -/
inductive Sel where
  | idx (k : ℤ)
  | slc (start stop step : ℤ)
  | strideOnly (k : ℤ)
  deriving Repr, DecidableEq

/-- Apply per-axis selections, highest axis first so that positions of
lower axes are unaffected by axis removal. -/
def applySelsRev (a : NDArray) : List (Nat × Option Sel) → Except String NDArray
  | [] => .ok a
  | (i, s) :: rest => do
    let a' ← match s with
      | none => Except.ok a
      | some (.idx k) => a.indexAxisPy i k
      | some (.slc x y z) => a.sliceAxisPy i x y z
      | some (.strideOnly k) => a.strideAxisPy i k
    applySelsRev a' rest

/-- Apply a dimension-name-keyed selection dict to an ndarray with the
given dimension names. -/
def iselND (a : NDArray) (dims : List String) (indexing : List (String × Sel)) :
    Except String NDArray :=
  applySelsRev a ((dims.enum.map fun p => (p.1, indexing.lookup p.2)).reverse)

/-- `da.isel(indexing)`: index the values and every coordinate along the
named dimensions; integer-indexed dimensions are dropped (coordinates
over them become scalar). -/
def DataArray.isel (da : DataArray) (indexing : List (String × Sel)) :
    Except String DataArray :=
  if ¬ (indexing.all fun kv => da.dims.contains kv.1) then
    .error "ValueError: Dimensions in indexers are not present in the DataArray"
  else do
    let isIdx : String → Bool := fun d =>
      match indexing.lookup d with
      | some (.idx _) => true
      | _ => false
    let arr' ← iselND da.arr da.dims indexing
    let coords' ← da.coords.mapM fun nc => do
      let carr ← iselND nc.2.arr nc.2.dims indexing
      Except.ok (nc.1, { nc.2 with arr := carr, dims := nc.2.dims.filter fun d => ¬ isIdx d })
    .ok { da with arr := arr', dims := da.dims.filter (fun d => ¬ isIdx d), coords := coords' }

/-- Python-dict update: overwrite the value in place if the key exists,
otherwise append (insertion order preserved). -/
def assocSet {α : Type} (l : List (String × α)) (k : String) (v : α) : List (String × α) :=
  if l.any fun kv => kv.1 == k then l.map fun kv => if kv.1 == k then (k, v) else kv
  else l ++ [(k, v)]

/-! ## cf.py — CF-convention axis detection -/

/-- The `standard_name → axis` controlled vocabulary (`cf.py` table). -/
def _STANDARD_NAME_TO_AXIS : List (String × String) :=
  [("longitude", "X"), ("grid_longitude", "X"), ("projection_x_coordinate", "X"),
   ("latitude", "Y"), ("grid_latitude", "Y"), ("projection_y_coordinate", "Y"),
   ("altitude", "Z"), ("height", "Z"), ("depth", "Z"), ("air_pressure", "Z"),
   ("geopotential_height", "Z"), ("atmosphere_ln_pressure_coordinate", "Z"),
   ("atmosphere_sigma_coordinate", "Z"),
   ("atmosphere_hybrid_sigma_pressure_coordinate", "Z"),
   ("ocean_sigma_coordinate", "Z"), ("ocean_s_coordinate", "Z"),
   ("ocean_s_coordinate_g1", "Z"), ("ocean_s_coordinate_g2", "Z"),
   ("ocean_double_sigma_coordinate", "Z"),
   ("time", "T"), ("forecast_reference_time", "T"), ("forecast_period", "T")]

/-- ASCII-adequate model of Python `str.upper` (the library string
upper-casing function does not reduce in the kernel; all names and tags
in scope are ASCII). -/
def pyUpper (s : String) : String := ⟨s.data.map Char.toUpper⟩

/-- ASCII-adequate model of Python `str.lower`. -/
def pyLower (s : String) : String := ⟨s.data.map Char.toLower⟩

/-- Full-match language of `^degrees?_?(east|E)$` (case-insensitive),
enumerated over lowercased input.  (Python `re` also accepts a single
trailing newline before `$`; names containing newlines are not modelled.) -/
def matchDegreesEast (u : String) : Bool :=
  ["degreeeast", "degree_east", "degreeseast", "degrees_east",
   "degreee", "degree_e", "degreese", "degrees_e"].contains (pyLower u)

/-- Full-match language of `^degrees?_?(north|N)$` (case-insensitive). -/
def matchDegreesNorth (u : String) : Bool :=
  ["degreenorth", "degree_north", "degreesnorth", "degrees_north",
   "degreen", "degree_n", "degreesn", "degrees_n"].contains (pyLower u)

/-- Full-match language of `^(Pa|hPa|mbar|millibar|bar|atm)$` (case-sensitive). -/
def matchPressureUnits (u : String) : Bool :=
  ["Pa", "hPa", "mbar", "millibar", "bar", "atm"].contains u

/-- The `_UNITS_TO_AXIS` pattern cascade, first match wins. -/
def unitsToAxis (u : String) : Option String :=
  if matchDegreesEast u then some "X"
  else if matchDegreesNorth u then some "Y"
  else if matchPressureUnits u then some "Z"
  else none

/-- The `_NAME_PATTERNS` heuristics, in source order, first match wins;
all patterns are anchored full-name matches, case-insensitive. -/
def namePatternAxis (nm : String) : Option String :=
  let l := pyLower nm
  if l = "lon" ∨ l = "longitude" then some "X"
  else if l = "x" then some "X"
  else if l = "lat" ∨ l = "latitude" then some "Y"
  else if l = "y" then some "Y"
  else if ["z", "lev", "level", "depth", "altitude", "height", "isobaric",
           "pressure", "sigma", "s_rho", "zlev"].contains l then some "Z"
  else if l = "time" then some "T"
  else none

/-- `cf._detect_axis_for_coord`: the four-rule priority cascade. -/
def _detect_axis_for_coord (name : String) (coord : Coord) : Option String :=
  let ax := pyUpper (coord.attrs.axis.getD "")
  if ax = "X" ∨ ax = "Y" ∨ ax = "Z" ∨ ax = "T" then some ax
  else
    match _STANDARD_NAME_TO_AXIS.lookup (coord.attrs.standard_name.getD "") with
    | some ax2 => some ax2
    | none =>
      let units := coord.attrs.units.getD ""
      match (if units ≠ "" then unitsToAxis units else none) with
      | some ax3 => some ax3
      | none => namePatternAxis name

/-- `cf.detect_axes`: iterate the coordinates in order, skip scalar
(0-dimensional) coordinates, keep the first coordinate claiming each
axis. -/
def detectStep (axes : List (String × String)) (nc : String × Coord) :
    List (String × String) :=
  if nc.2.arr.ndim = 0 then axes
  else
    match _detect_axis_for_coord nc.1 nc.2 with
    | some ax => if (axes.lookup ax).isSome then axes else axes ++ [(ax, nc.1)]
    | none => axes

def detect_axes (da : DataArray) : List (String × String) :=
  da.coords.foldl detectStep []

/-! ## accessor.py — coordinate retrieval and the pyvista mesh container -/

/-- `self._obj.name or "data"`: the attachment name for the value array. -/
def pyName (da : DataArray) : String :=
  match da.name with
  | some n => if n = "" then "data" else n
  | none => "data"

/-- `PyVistaAccessor._get_array`: coordinate values; non-numeric
coordinates are replaced by scaled integer indices (`np.arange(len(values))
* scale`, where `len` is the leading dimension); byte-order normalization
copies preserve values and are invisible at this level of modelling. -/
def getArray (da : DataArray) (key : String) (scale : ℚ) : Except String NDArray :=
  match da.coords.lookup key with
  | none => .error ("KeyError: Key " ++ key ++ " not present in DataArray.")
  | some c =>
    if c.numeric then .ok c.arr
    else
      match c.arr.shape with
      | [] => .error "TypeError: len() of unsized object"
      | s0 :: _ => .ok ⟨[s0], (List.range s0).map fun i => (i : ℚ) * scale⟩

/-- Python `(scales and scales.get(x)) or 1`: a missing, empty or falsy
(zero) scale entry yields `1`. -/
def scaleOf (scales : List (String × ℚ)) (k : String) : ℚ :=
  match scales.lookup k with
  | some v => if v = 0 then 1 else v
  | none => 1

/-- The external pyvista mesh container, by its documented contract: a
rectilinear grid holds three independent axis coordinate lists (a fresh
grid defaults each to the single coordinate `0.0`), a structured grid an
explicit point buffer plus logical dimensions, a poly-data mesh a point
buffer; each holds name-indexed value arrays.  Arrays whose leading
length matches the point count become point data; anything else lands in
the container's fallback attribute bucket (`other`). -/
inductive PyMesh where
  | rect (xc yc zc : List ℚ) (pdata other : List (String × NDArray))
  | sgrid (points : List (ℚ × ℚ × ℚ)) (dimensions : List Nat)
      (pdata other : List (String × NDArray))
  | poly (points : List (ℚ × ℚ × ℚ)) (pdata other : List (String × NDArray))
  deriving Repr, DecidableEq

namespace PyMesh

def nPoints : PyMesh → Nat
  | .rect xc yc zc _ _ => xc.length * yc.length * zc.length
  | .sgrid pts _ _ _ => pts.length
  | .poly pts _ _ => pts.length

def pointData : PyMesh → List (String × NDArray)
  | .rect _ _ _ p _ => p
  | .sgrid _ _ p _ => p
  | .poly _ p _ => p

def otherData : PyMesh → List (String × NDArray)
  | .rect _ _ _ _ o => o
  | .sgrid _ _ _ o => o
  | .poly _ _ o => o

def withPointData : PyMesh → List (String × NDArray) → PyMesh
  | .rect xc yc zc _ o, p => .rect xc yc zc p o
  | .sgrid pts d _ o, p => .sgrid pts d p o
  | .poly pts _ o, p => .poly pts p o

def withOther : PyMesh → List (String × NDArray) → PyMesh
  | .rect xc yc zc p _, o => .rect xc yc zc p o
  | .sgrid pts d p _, o => .sgrid pts d p o
  | .poly pts p _, o => .poly pts p o

/-- `mesh[name] = values` on the container. -/
def setItem (m : PyMesh) (nm : String) (v : NDArray) : PyMesh :=
  if v.shape.headD 0 = m.nPoints then m.withPointData (assocSet m.pointData nm v)
  else m.withOther (assocSet m.otherData nm v)

/-- `mesh[name]` read-back. -/
def getItem (m : PyMesh) (nm : String) : Option NDArray :=
  (m.pointData.lookup nm).orElse fun _ => m.otherData.lookup nm

def isPoly : PyMesh → Bool
  | .poly _ _ _ => true
  | _ => false

def isRect : PyMesh → Bool
  | .rect _ _ _ _ _ => true
  | _ => false

def isSgrid : PyMesh → Bool
  | .sgrid _ _ _ _ => true
  | _ => false

end PyMesh

/-! ## rectilinear.py -/

/-- The shared part of the rectilinear dimensionality-mismatch message. -/
def rectMismatchMsg (nd vd : Nat) : String :=
  "Dimensional mismatch between specified X, Y, Z coords and dimensionality of DataArray ("
    ++ toString nd ++ " vs " ++ toString vd ++ ")"

/-- One axis of the rectilinear grid: the looked-up coordinate values, or
the container's default single `0.0` coordinate when the axis is unset. -/
def axisCoord (da : DataArray) (o : Option String) (scales : List (String × ℚ)) :
    Except String (List ℚ) :=
  match o with
  | none => .ok [(0 : ℚ)]
  | some k => do
    let a ← getArray da k (scaleOf scales k)
    .ok a.flat

/-- The multicomponent path shared by `rectilinear.mesh` and `points.mesh`:
`self._obj.transpose(*dims, component).values.reshape((-1, shape[-1]), order)`.
(`points.mesh` builds `dims` as a CPython set; its iteration order is
unspecified and is modelled as the original dimension order.) -/
def componentValues (da : DataArray) (comp : String) (order : String) :
    Except String NDArray :=
  if ¬ da.dims.contains comp then
    .error "ValueError: cannot transpose, component dimension not found"
  else
    let dims' := da.dims.filter fun d => d ≠ comp
    let perm := (dims' ++ [comp]).map fun d => da.dims.findIdx (· == d)
    let tv := da.arr.transposePerm perm
    .ok (tv.reshape2 order (tv.shape.getLastD 0))

/-- `rectilinear.mesh`. -/
def rectilinear_mesh (da : DataArray) (x y z : Option String) (order0 : Option String)
    (component : Option String) (scales : List (String × ℚ)) : Except String PyMesh := do
  let order := order0.getD "C"
  let ndim := 3 - ([x, y, z].countP fun o => o.isNone)
  if ndim < 1 then
    Except.error "You must specify at least one dimension as X, Y, or Z."
  else do
    let xc ← axisCoord da x scales
    let yc ← axisCoord da y scales
    let zc ← axisCoord da z scales
    let values := da.arr
    let values_dim := values.ndim
    let vnd ← match component with
      | some comp => do
        -- multicomponent reshape (emits a DataCopyWarning advisory, not modelled)
        let v ← componentValues da comp order
        Except.ok (v, ndim + 1)
      | none => Except.ok ((⟨[values.size], values.ravelPy order⟩ : NDArray), ndim)
    if values_dim ≠ vnd.2 then
      if vnd.2 > values_dim then
        Except.error (rectMismatchMsg vnd.2 values_dim
          ++ ". Too many coordinate dimensions specified leave out Y and/or Z.")
      else
        Except.error (rectMismatchMsg vnd.2 values_dim
          ++ ". Too few coordinate dimensions specified. Be sure to specify "
          ++ "Y and/or Z or reduce the dimensionality of the DataArray by indexing "
          ++ "along non-spatial coordinates like Time.")
    else
      Except.ok ((PyMesh.rect xc yc zc [] []).setItem (pyName da) vnd.1)

/-! ## points.py -/

/-- `points.mesh`. -/
def points_mesh (da : DataArray) (x y z : Option String) (order0 : Option String)
    (component : Option String) (scales : List (String × ℚ)) : Except String PyMesh := do
  let order := order0.getD "C"
  let ndim := 3 - ([x, y, z].countP fun o => o.isNone)
  if ndim < 1 then
    Except.error "You must specify at least one dimension as X, Y, or Z."
  else do
    let valuesF ← match component with
      | some comp => componentValues da comp order
      | none => Except.ok (⟨[da.arr.size], da.arr.ravelPy order⟩ : NDArray)
    let n_points := valuesF.shape.headD 0
    let pcoord : Option String → Except String NDArray := fun o =>
      match o with
      | some k => getArray da k (scaleOf scales k)
      | none => .ok ⟨[n_points], List.replicate n_points 0⟩
    let xa ← pcoord x
    let ya ← pcoord y
    let za ← pcoord z
    let values_dim := valuesF.shape.headD 0
    if values_dim ≠ xa.shape.headD 0 then
      Except.error ("Dimensional mismatch between specified X, Y, Z coords "
        ++ "and dimensionality of DataArray (" ++ toString (xa.shape.headD 0)
        ++ " vs " ++ toString values_dim ++ ")")
    else
      Except.ok ((PyMesh.poly ((xa.flat.zip (ya.flat.zip za.flat)).map
        fun p => (p.1, p.2.1, p.2.2)) [] []).setItem (pyName da) valuesF)

/-! ## structured.py -/

/-- `np.repeat(a, k, axis=ax)`: every length-`inner` sub-block along the
axis is repeated `k` times consecutively. -/
def npRepeat (a : NDArray) (k : Nat) (ax : Nat) : NDArray :=
  let inner := NDArray.innerSize a.shape ax
  let chunks := chunkExact inner a.flat
  ⟨a.shape.set ax ((a.shape.getD ax 0) * k),
   (chunks.map fun c => (List.replicate k c).flatten).flatten⟩

/-- One array of `structured._coerce_shapes`: pass `None` through, keep
exact-shape arrays, attempt `np.repeat([arr], shape[2 - maxi],
axis=2 - maxi)` on arrays of strictly lower dimensionality, and raise on
equal-dimensionality shape conflicts.  (The dynamic shape listing inside
the broadcast error text is elided.) -/
def coerceOne (maxi nd : Nat) (shape : List Nat) (oa : Option NDArray) :
    Except String (Option NDArray) :=
  match oa with
  | none => .ok none
  | some a =>
    if a.shape = shape then .ok (some a)
    else if a.ndim < nd then
      if 2 - maxi < shape.length then
        if a.ndim + 1 ≤ 2 - maxi then .error "AxisError: axis out of bounds"
        else .ok (some (npRepeat ⟨1 :: a.shape, a.flat⟩ (shape.getD (2 - maxi) 0) (2 - maxi)))
      else .error "IndexError: tuple index out of range"
    else .error "ValueError: Cannot broadcast coordinate arrays with shapes that do not match"

/-- The `maxi`/`ndim` scan of `structured._coerce_shapes`: the first
array of strictly maximal dimensionality wins. -/
def coerceScan (x y z : Option NDArray) : Nat × Nat :=
  let s0 : Nat × Nat := (0, 0)
  let s1 := match x with
    | none => s0
    | some a => if a.ndim > s0.2 then (0, a.ndim) else s0
  let s2 := match y with
    | none => s1
    | some a => if a.ndim > s1.2 then (1, a.ndim) else s1
  match z with
  | none => s2
  | some a => if a.ndim > s2.2 then (2, a.ndim) else s2

/-- `structured._coerce_shapes` (always called with the three optional
coordinate arrays): locate the first array of maximal dimensionality
(`maxi`), then coerce each argument against its shape with `coerceOne`. -/
def _coerce_shapes (x y z : Option NDArray) : Except String (List (Option NDArray)) :=
  let scan := coerceScan x y z
  let maxi := scan.1
  let nd := scan.2
  if nd < 1 then .error "All coordinate arrays are empty or None."
  else
    -- `arrs[maxi].shape`; when `nd ≥ 1` the winning slot is a present array
    let shape := match maxi, x, y, z with
      | 0, some a, _, _ => a.shape
      | 1, _, some a, _ => a.shape
      | 2, _, _, some a => a.shape
      | _, _, _, _ => []
    do
      let x' ← coerceOne maxi nd shape x
      let y' ← coerceOne maxi nd shape y
      let z' ← coerceOne maxi nd shape z
      .ok [x', y', z']

/-- Optional coordinate retrieval for the structured builder. -/
def optCoord (da : DataArray) (o : Option String) (scales : List (String × ℚ)) :
    Except String (Option NDArray) :=
  match o with
  | none => .ok none
  | some k => do
    let a ← getArray da k (scaleOf scales k)
    .ok (some a)

/-- `structured._points`: the interleaved point buffer and the logical
dimensions.  (A column assignment whose ravel length cannot fill the
point count raises, as numpy broadcasting would.) -/
def structured_points (da : DataArray) (x y z : Option String) (order0 : Option String)
    (scales : List (String × ℚ)) : Except String (List (ℚ × ℚ × ℚ) × List Nat) := do
  let order := order0.getD "F"
  let ndim := 3 - ([x, y, z].countP fun o => o.isNone)
  if ndim < 2 then
    if ndim = 1 then
      Except.error "One dimensional structured grids should be rectilinear grids."
    else
      Except.error "You must specify at least two dimensions as X, Y, or Z."
  else do
    let xa ← optCoord da x scales
    let ya ← optCoord da y scales
    let za ← optCoord da z scales
    let arrs ← _coerce_shapes xa ya za
    match (arrs.filterMap id).head? with
    | none => Except.error "StopIteration: all coordinate arrays are None"
    | some fst =>
      let n := fst.size
      let col : Option NDArray → Except String (List ℚ) := fun o =>
        match o with
        | none => Except.ok (List.replicate n 0)
        | some a =>
          let r := a.ravelPy order
          if r.length ≠ n then Except.error "ValueError: could not broadcast input array"
          else Except.ok r
      let cx ← col (arrs.getD 0 none)
      let cy ← col (arrs.getD 1 none)
      let cz ← col (arrs.getD 2 none)
      match arrs.getD 0 none with
      | none => Except.error "AttributeError: NoneType object has no attribute shape"
      | some xarr =>
        Except.ok ((cx.zip (cy.zip cz)).map (fun p => (p.1, p.2.1, p.2.2)),
          xarr.shape ++ List.replicate (3 - ndim) 1)

/-- `structured.mesh`: the component rejection happens first, before any
coordinate lookup or array work; the unconditional DataCopyWarning is an
advisory notice and is not modelled. -/
def structured_mesh (da : DataArray) (x y z : Option String) (order0 : Option String)
    (component : Option String) (scales : List (String × ℚ)) : Except String PyMesh := do
  let order := order0.getD "F"
  match component with
  | some _ => Except.error "Component is not currently supported for StructuredGrid"
  | none => do
    let ps ← structured_points da x y z (some order) scales
    let data := da.arr
    Except.ok ((PyMesh.sgrid ps.1 ps.2 [] []).setItem (pyName da)
      ⟨[data.size], data.ravelPy order⟩)

/-! ## accessor.py — `PyVistaAccessor.mesh` dispatch -/

/-- The auto-detection step of `accessor.mesh`: when no axis name is
given, resolve x/y/z from `detect_axes` and require at least one of x, y.
(The dynamic list of available coordinates in the error text is elided.) -/
def resolveAxes (da : DataArray) (x y z : Option String) :
    Except String (Option String × Option String × Option String) :=
  if x = none ∧ y = none ∧ z = none then
    let axes := detect_axes da
    let x' := axes.lookup "X"
    let y' := axes.lookup "Y"
    let z' := axes.lookup "Z"
    if x' = none ∧ y' = none then
      .error "Could not auto-detect spatial coordinates. Specify x=, y=, and/or z= explicitly."
    else .ok (x', y', z')
  else .ok (x, y, z)

/-- The coordinate-dimensionality fold of `accessor.mesh` (lines 220-231):
`ndim` is assigned from x and then maxed with y and z. -/
def coordNdimFold (da : DataArray) (x y z : Option String) : Except String Nat := do
  let n1 ← match x with
    | none => Except.ok 0
    | some k => do
      let a ← getArray da k 1
      Except.ok a.ndim
  let n2 ← match y with
    | none => Except.ok n1
    | some k => do
      let a ← getArray da k 1
      Except.ok (if a.ndim > n1 then a.ndim else n1)
  match z with
  | none => Except.ok n2
  | some k => do
    let a ← getArray da k 1
    Except.ok (if a.ndim > n2 then a.ndim else n2)

/-- `PyVistaAccessor.mesh`: resolve axes, compute the coordinate
dimensionality, choose the mesh kind (auto: structured iff some
coordinate has more than one dimension), dispatch to the builder. -/
def accessor_mesh (da : DataArray) (x y z : Option String) (order : Option String)
    (component mesh_type : Option String) (scales : List (String × ℚ)) :
    Except String PyMesh := do
  let axs ← resolveAxes da x y z
  let nd ← coordNdimFold da axs.1 axs.2.1 axs.2.2
  let mt := match mesh_type with
    | none => if nd > 1 then "structured" else "rectilinear"
    | some t => t
  if mt = "points" then points_mesh da axs.1 axs.2.1 axs.2.2 order component scales
  else if mt = "rectilinear" then rectilinear_mesh da axs.1 axs.2.1 axs.2.2 order component scales
  else if mt = "structured" then structured_mesh da axs.1 axs.2.1 axs.2.2 order component scales
  else Except.error ("KeyError: Unknown mesh_type " ++ mt
    ++ ". Choose from: points, rectilinear, structured")

/-! ## vtk_source.py — the lazy evaluation source -/

/-- A derived-field table value: expression strings, plus the reserved
`"_use_scalars"` key whose value is a list of array names. -/
inductive CompVal where
  | str (s : String)
  | strList (l : List String)
  deriving Repr, DecidableEq

/-- The external VTK array calculator, abstracted as an arbitrary total
evaluator from an expression string and the visible point arrays to a
result array. -/
abbrev CalcFn := String → List (String × NDArray) → NDArray

/-- `PyVistaXarraySource` state: the configuration fields and the three
cache slots (`_sliced_data_array`, `_persisted_data`, `_mesh`). -/
structure SourceState where
  data_array : Option DataArray
  resolution : Option ℚ
  x : Option String
  y : Option String
  z : Option String
  order : String
  component : Option String
  mesh_type : Option String
  time : Option String
  time_index : ℤ
  z_index : Option ℤ
  slicing : Option (List (String × (ℤ × ℤ × ℤ)))
  dataset : Option (List (String × DataArray))
  arrays : List String
  computed : List (String × CompVal)
  pipeline : List (PyMesh → PyMesh)
  sliced_cache : Option DataArray
  persisted_cache : Option DataArray
  mesh_cache : Option PyMesh

/-- `PyVistaXarraySource.Modified`: clear all three cache slots. -/
def Modified (s : SourceState) : SourceState :=
  { s with sliced_cache := none, persisted_cache := none, mesh_cache := none }

/-- One property-setter invocation on the source (each Python setter
stores the new value and then calls `Modified`). -/
inductive SetterCall where
  | setDataArray (v : Option DataArray)
  | setResolution (v : Option ℚ)
  | setX (v : Option String)
  | setY (v : Option String)
  | setZ (v : Option String)
  | setTime (v : Option String)
  | setOrder (v : String)
  | setComponent (v : Option String)
  | setTimeIndex (v : ℤ)
  | setZIndex (v : Option ℤ)
  | setSlicing (v : Option (List (String × (ℤ × ℤ × ℤ))))
  | setDataset (v : Option (List (String × DataArray)))
  | setArrays (v : List String)
  | setComputed (v : List (String × CompVal))
  | setPipeline (v : List (PyMesh → PyMesh))

def applySetter : SetterCall → SourceState → SourceState
  | .setDataArray v, s => Modified { s with data_array := v }
  | .setResolution v, s => Modified { s with resolution := v }
  | .setX v, s => Modified { s with x := v }
  | .setY v, s => Modified { s with y := v }
  | .setZ v, s => Modified { s with z := v }
  | .setTime v, s => Modified { s with time := v }
  | .setOrder v, s => Modified { s with order := v }
  | .setComponent v, s => Modified { s with component := v }
  | .setTimeIndex v, s => Modified { s with time_index := v }
  | .setZIndex v, s => Modified { s with z_index := v }
  | .setSlicing v, s => Modified { s with slicing := v }
  | .setDataset v, s => Modified { s with dataset := v }
  | .setArrays v, s => Modified { s with arrays := v }
  | .setComputed v, s => Modified { s with computed := v }
  | .setPipeline v, s => Modified { s with pipeline := v }

/-- `PyVistaXarraySource._build_indexing`: slicing entries whose key is
one of the bound axis names, then the time index (overriding a slicing
entry for the time dimension), then the vertical index. -/
def buildIndexing (s : SourceState) : List (String × Sel) :=
  let base : List (String × Sel) := match s.slicing with
    | none => []
    | some sl => (sl.filter fun kv =>
        s.x == some kv.1 || s.y == some kv.1 || s.z == some kv.1).map
        fun kv => (kv.1, Sel.slc kv.2.1 kv.2.2.1 kv.2.2.2)
  let withT := match s.time with
    | none => base
    | some t => assocSet base t (Sel.idx s.time_index)
  match s.z, s.z_index with
  | some zn, some zi => if zn ≠ "" then assocSet withT zn (Sel.idx zi) else withT
  | _, _ => withT

/-- `PyVistaXarraySource.resolution_to_sampling_rate`:
`n = np.floor(shape * resolution)`, `rate = np.ceil(shape / n).astype(int)`,
zero-padded to 3 entries.  A zero target count `n` divides by zero; the
float→int cast of the resulting non-finite value is undefined behaviour
in numpy and is modelled as `none`.  More than 3 dimensions make the pad
width negative, which raises.  Arithmetic is modelled exactly over ℚ
(IEEE rounding of `shape * resolution` is not modelled). -/
def resolution_to_sampling_rate (resolution : ℚ) (shape : List Nat) :
    Except String (List (Option ℤ)) :=
  let rate : List (Option ℤ) := shape.map fun (si : Nat) =>
    let n : ℤ := ⌊(si : ℚ) * resolution⌋
    if n = 0 then none else some ⌈(si : ℚ) / (n : ℚ)⌉
  if 3 < shape.length then
    .error "ValueError: index can not contain negative values (np.pad)"
  else .ok (rate ++ List.replicate (3 - shape.length) (some 0))

/-- Read one unpacked sampling rate; an undefined (non-finite-cast)
entry has no defined value. -/
def rateAt (rates : List (Option ℤ)) (i : Nat) : Except String ℤ :=
  match rates.getD i (some 0) with
  | some v => .ok v
  | none => .error "undefined sampling rate: int cast of a non-finite float"

/-- Positional strided slicing `da[::k1, ::k2, ...]` on the leading
dimensions (coordinates are sliced along the shared dimensions). -/
def strideDA (da : DataArray) (ks : List ℤ) : Except String DataArray :=
  if ks.length > da.dims.length then .error "IndexError: too many indices"
  else da.isel ((da.dims.take ks.length).zip (ks.map Sel.strideOnly))

/-- `PyVistaXarraySource._subsample`: a no-op when an explicit slicing
spec is set or no resolution is set; otherwise stride the first
`min(ndim, 3)` dimensions by the computed sampling rates. -/
def subsampleState (s : SourceState) (da : DataArray) : Except String DataArray :=
  if s.slicing.isSome ∨ s.resolution.isNone then .ok da
  else
    match s.resolution with
    | none => .ok da
    | some r => do
      let rates ← resolution_to_sampling_rate r da.arr.shape
      if da.arr.ndim ≤ 1 then do
        let rx ← rateAt rates 0
        strideDA da [rx]
      else if da.arr.ndim = 2 then do
        let rx ← rateAt rates 0
        let ry ← rateAt rates 1
        strideDA da [rx, ry]
      else if da.arr.ndim = 3 then do
        let rx ← rateAt rates 0
        let ry ← rateAt rates 1
        let rz ← rateAt rates 2
        strideDA da [rx, ry, rz]
      else .ok da

/-- The `Dirty → Sliced` pipeline body: `isel` then `_subsample`. -/
def slicedPipeline (s : SourceState) (da0 : DataArray) : Except String DataArray := do
  let da1 ← da0.isel (buildIndexing s)
  subsampleState s da1

/-- `PyVistaXarraySource._compute_sliced_data_array`: with no data array
the cache slot stays empty; otherwise slice, subsample and fill the
cache (an exception leaves the cache untouched). -/
def computeSliced (s : SourceState) : Except String (Option DataArray) × SourceState :=
  match s.data_array with
  | none => (.ok none, s)
  | some da0 =>
    match slicedPipeline s da0 with
    | .error e => (.error e, s)
    | .ok da2 => (.ok (some da2), { s with sliced_cache := some da2 })

/-- The `sliced_data_array` property read. -/
def readSliced (s : SourceState) : Except String (Option DataArray) × SourceState :=
  match s.sliced_cache with
  | some da => (.ok (some da), s)
  | none => computeSliced s

/-- The `persisted_data` property read.  `persist()` materializes a
chunked array without changing its values, so at this value level both
branches coincide; an empty sliced result leaves the cache empty. -/
def readPersisted (s : SourceState) : Except String (Option DataArray) × SourceState :=
  match s.persisted_cache with
  | some da => (.ok (some da), s)
  | none =>
    match readSliced s with
    | (.error e, s') => (.error e, s')
    | (.ok none, s') => (.ok none, s')
    | (.ok (some da), s') => (.ok (some da), { s' with persisted_cache := some da })

/-- The extra-variable loop of `_compute_mesh`: each configured name not
equal to the primary name and present in the dataset is indexed,
subsampled, and attached; an exception stops the loop with the partially
populated mesh (already assigned to the cache in the Python code). -/
def extraArraysLoop (s : SourceState) (indexing : List (String × Sel)) (primary : String)
    (ds : List (String × DataArray)) : List String → PyMesh → Except (String × PyMesh) PyMesh
  | [], m => .ok m
  | nm :: rest, m =>
    match ds.lookup nm with
    | none => extraArraysLoop s indexing primary ds rest m
    | some dan =>
      if nm = primary then extraArraysLoop s indexing primary ds rest m
      else
        match (do
            let d1 ← dan.isel indexing
            subsampleState s d1) with
        | .error e => .error (e, m)
        | .ok d2 =>
          extraArraysLoop s indexing primary ds rest
            (m.setItem nm ⟨[d2.arr.size], d2.arr.ravelPy s.order⟩)

/-- `PyVistaXarraySource._apply_computed_fields`: one external
calculator run per non-reserved key, over the point arrays (restricted
to `_use_scalars` when that list is non-empty), attaching the result
under the key.  (An expression-typed `_use_scalars` value would trigger
Python substring tests; that corner is not exercised and is modelled as
the empty restriction.) -/
def applyComputedFields (calcF : CalcFn) (computed : List (String × CompVal)) (m : PyMesh) :
    PyMesh :=
  if computed.isEmpty then m
  else
    let use_scalars : List String := match computed.lookup "_use_scalars" with
      | some (.strList l) => l
      | _ => []
    computed.foldl
      (fun mesh p =>
        if p.1.startsWith "_" then mesh
        else
          let inputs := mesh.pointData.filter fun a =>
            use_scalars.isEmpty || use_scalars.contains a.1
          let e := match p.2 with
            | .str e0 => e0
            | .strList _ => ""
          mesh.withPointData (assocSet mesh.pointData p.1 (calcF e inputs)))
      m

/-- `PyVistaXarraySource._apply_pipeline`: fold the stored filters. -/
def applyPipeline (pipeline : List (PyMesh → PyMesh)) (m : PyMesh) : PyMesh :=
  pipeline.foldl (fun mesh f => f mesh) m

/-- `PyVistaXarraySource._compute_mesh`: build the base mesh from the
persisted data through the accessor (suppressing the z axis name once a
vertical index has been applied, and passing the slicing steps as scale
factors), attach the extra variables, apply the derived-field table and
the pipeline, and fill the mesh cache.  Failures after the base mesh was
built leave the base (or partially populated) mesh in the cache, as the
Python assignment order does. -/
def computeMesh (calcF : CalcFn) (s : SourceState) : Except String PyMesh × SourceState :=
  match readPersisted s with
  | (.error e, s') => (.error e, s')
  | (.ok none, s') => (.error "AttributeError: NoneType object has no attribute pyvista", s')
  | (.ok (some pda), s') =>
    let scales : List (String × ℚ) := match s.slicing with
      | some sl => sl.map fun kv => (kv.1, (kv.2.2.2 : ℚ))
      | none => []
    match accessor_mesh pda s.x s.y (if s.z_index.isNone then s.z else none)
        (some s.order) s.component s.mesh_type scales with
    | .error e => (.error e, s')
    | .ok m0 =>
      match s.dataset with
      | some ds =>
        if s.arrays.isEmpty then
          let m3 := applyPipeline s.pipeline (applyComputedFields calcF s.computed m0)
          (.ok m3, { s' with mesh_cache := some m3 })
        else
          match s.data_array with
          | none =>
            (.error "AttributeError: NoneType object has no attribute name",
             { s' with mesh_cache := some m0 })
          | some da0 =>
            match extraArraysLoop s (buildIndexing s) (pyName da0) ds s.arrays m0 with
            | .error em => (.error em.1, { s' with mesh_cache := some em.2 })
            | .ok m1 =>
              let m3 := applyPipeline s.pipeline (applyComputedFields calcF s.computed m1)
              (.ok m3, { s' with mesh_cache := some m3 })
      | none =>
        let m3 := applyPipeline s.pipeline (applyComputedFields calcF s.computed m0)
        (.ok m3, { s' with mesh_cache := some m3 })

/-- The `mesh` property read: return the cached mesh, or rebuild it. -/
def readMesh (calcF : CalcFn) (s : SourceState) : Except String PyMesh × SourceState :=
  match s.mesh_cache with
  | some m => (.ok m, s)
  | none => computeMesh calcF s

/-! ## Helper lemmas -/

theorem detectStep_subset {acc : List (String × String)} {nc : String × Coord}
    {p : String × String} (h : p ∈ detectStep acc nc) :
    p ∈ acc ∨ (p.2 = nc.1 ∧ nc.2.arr.ndim ≠ 0) := by
  unfold detectStep at h
  split at h
  · exact Or.inl h
  · rename_i hnd
    split at h
    · rename_i ax hax
      split at h
      · exact Or.inl h
      · rcases List.mem_append.1 h with h1 | h1
        · exact Or.inl h1
        · have h2 := List.mem_singleton.1 h1
          exact Or.inr ⟨by rw [h2], hnd⟩
    · exact Or.inl h

theorem detectFold_mem {l : List (String × Coord)} {acc : List (String × String)}
    {p : String × String} (h : p ∈ l.foldl detectStep acc) :
    p ∈ acc ∨ ∃ c, (p.2, c) ∈ l ∧ c.arr.ndim ≠ 0 := by
  induction l generalizing acc with
  | nil => exact Or.inl h
  | cons nc rest ih =>
    rcases @ih (detectStep acc nc) h with h1 | ⟨c, hc, hcnd⟩
    · rcases detectStep_subset h1 with h2 | h2
      · exact Or.inl h2
      · refine Or.inr ⟨nc.2, ?_, h2.2⟩
        rw [h2.1]
        exact List.mem_cons_self _ _
    · exact Or.inr ⟨c, List.mem_cons_of_mem _ hc, hcnd⟩

theorem detectFold_skip {l : List (String × Coord)} {acc : List (String × String)}
    (h : ∀ nc ∈ l, nc.2.arr.ndim = 0 ∨ _detect_axis_for_coord nc.1 nc.2 = none) :
    l.foldl detectStep acc = acc := by
  induction l generalizing acc with
  | nil => rfl
  | cons nc rest ih =>
    have hstep : detectStep acc nc = acc := by
      rcases h nc (List.mem_cons_self _ _) with h0 | h0
      · unfold detectStep; rw [if_pos h0]
      · unfold detectStep
        split
        · rfl
        · rw [h0]
    rw [List.foldl_cons, hstep]
    exact ih fun nc' hm => h nc' (List.mem_cons_of_mem _ hm)

theorem keyUnique {α : Type} : ∀ {l : List (String × α)}, (l.map Prod.fst).Nodup →
    ∀ {k : String} {a b : α}, (k, a) ∈ l → (k, b) ∈ l → a = b := by
  intro l
  induction l with
  | nil => intro _ k a b ha; cases ha
  | cons x rest ih =>
    intro hnd k a b ha hb
    simp only [List.map_cons, List.nodup_cons] at hnd
    rcases List.mem_cons.1 ha with h1 | h1 <;> rcases List.mem_cons.1 hb with h2 | h2
    · have h12 : (k, a) = (k, b) := h1.trans h2.symm
      exact congrArg Prod.snd h12
    · exfalso
      apply hnd.1
      have : x.1 = k := by rw [← h1]
      rw [this]
      exact List.mem_map_of_mem Prod.fst h2
    · exfalso
      apply hnd.1
      have : x.1 = k := by rw [← h2]
      rw [this]
      exact List.mem_map_of_mem Prod.fst h1
    · exact ih hnd.2 h1 h2

/-! ## Claims -/

/-- C5: for every coordinate carrying an explicit `axis` attribute whose
upper-casing is one of X/Y/Z/T, the classifier returns exactly that axis
regardless of `standard_name`, `units` and the name; and in general the
four detection rules are tried in strict priority order with the first
successful rule winning: an invalid axis tag falls to the
`standard_name` vocabulary, then (when `units` is non-empty) to the
units patterns, then to the name heuristics. -/
theorem claim_C5 (name : String) (coord : Coord) :
    ((pyUpper (coord.attrs.axis.getD "") = "X" ∨ pyUpper (coord.attrs.axis.getD "") = "Y" ∨
      pyUpper (coord.attrs.axis.getD "") = "Z" ∨ pyUpper (coord.attrs.axis.getD "") = "T") →
      _detect_axis_for_coord name coord = some (pyUpper (coord.attrs.axis.getD ""))) ∧
    (¬ (pyUpper (coord.attrs.axis.getD "") = "X" ∨ pyUpper (coord.attrs.axis.getD "") = "Y" ∨
      pyUpper (coord.attrs.axis.getD "") = "Z" ∨ pyUpper (coord.attrs.axis.getD "") = "T") →
      ∀ ax2, _STANDARD_NAME_TO_AXIS.lookup (coord.attrs.standard_name.getD "") = some ax2 →
      _detect_axis_for_coord name coord = some ax2) ∧
    (¬ (pyUpper (coord.attrs.axis.getD "") = "X" ∨ pyUpper (coord.attrs.axis.getD "") = "Y" ∨
      pyUpper (coord.attrs.axis.getD "") = "Z" ∨ pyUpper (coord.attrs.axis.getD "") = "T") →
      _STANDARD_NAME_TO_AXIS.lookup (coord.attrs.standard_name.getD "") = none →
      coord.attrs.units.getD "" ≠ "" →
      ∀ ax3, unitsToAxis (coord.attrs.units.getD "") = some ax3 →
      _detect_axis_for_coord name coord = some ax3) ∧
    (¬ (pyUpper (coord.attrs.axis.getD "") = "X" ∨ pyUpper (coord.attrs.axis.getD "") = "Y" ∨
      pyUpper (coord.attrs.axis.getD "") = "Z" ∨ pyUpper (coord.attrs.axis.getD "") = "T") →
      _STANDARD_NAME_TO_AXIS.lookup (coord.attrs.standard_name.getD "") = none →
      (coord.attrs.units.getD "" = "" ∨ unitsToAxis (coord.attrs.units.getD "") = none) →
      _detect_axis_for_coord name coord = namePatternAxis name) := by
  refine ⟨?_, ?_, ?_, ?_⟩
  · intro h
    unfold _detect_axis_for_coord
    rw [if_pos h]
  · intro h ax2 h2
    simp only [_detect_axis_for_coord, if_neg h, h2]
  · intro h h2 h3 ax3 h4
    simp only [_detect_axis_for_coord, if_neg h, h2, if_pos h3, h4]
  · intro h h2 h3
    have hnone : (if coord.attrs.units.getD "" ≠ "" then
        unitsToAxis (coord.attrs.units.getD "") else none) = none := by
      rcases h3 with h3 | h3
      · rw [if_neg fun hc => hc h3]
      · split
        · exact h3
        · rfl
    simp only [_detect_axis_for_coord, if_neg h, h2, hnone]

/-- Witness for C5: an explicit lowercase `axis = "t"` tag beats a
`standard_name` of longitude, `units` of degrees_north and the name
`lat`. -/
theorem claim_C5_witness :
    _detect_axis_for_coord "lat"
      ⟨["c"], ⟨[2], [0, 1]⟩, true, ⟨some "t", some "longitude", some "degrees_north"⟩⟩ =
      some "T" := by
  have h := (claim_C5 "lat"
    ⟨["c"], ⟨[2], [0, 1]⟩, true, ⟨some "t", some "longitude", some "degrees_north"⟩⟩).1
  exact (h (by decide)).trans (by decide)

/-- C6: scalar (0-dimensional) coordinates never appear in the detected
axis mapping, and a coordinate set in which nothing matches any rule
yields the empty mapping (the function is total: it never raises). -/
theorem claim_C6 (da : DataArray) :
    ((da.coords.map Prod.fst).Nodup →
      ∀ nm c, (nm, c) ∈ da.coords → c.arr.ndim = 0 →
        ∀ ax, (ax, nm) ∉ detect_axes da) ∧
    ((∀ nc ∈ da.coords, nc.2.arr.ndim = 0 ∨ _detect_axis_for_coord nc.1 nc.2 = none) →
      detect_axes da = []) := by
  constructor
  · intro hnd nm c hmem h0 ax hin
    rcases detectFold_mem hin with h1 | ⟨c', hc', hcnd⟩
    · cases h1
    · exact hcnd (by rw [keyUnique hnd hc' hmem]; exact h0)
  · intro h
    exact detectFold_skip h

/-- Witness for C6: a scalar `lon` coordinate is not reported even
though its name matches, and a coordinate set with only non-matching
rules gives the empty mapping. -/
theorem claim_C6_witness :
    (("X", "lon") ∉ detect_axes
      { name := some "v", dims := [], arr := ⟨[], [7]⟩,
        coords := [("lon", ⟨[], ⟨[], [3]⟩, true, ⟨none, none, none⟩⟩)] }) ∧
    detect_axes
      { name := some "v", dims := ["foo"], arr := ⟨[2], [7, 8]⟩,
        coords := [("foo", ⟨["foo"], ⟨[2], [3, 4]⟩, true, ⟨none, none, none⟩⟩)] } = [] := by
  constructor
  · exact (claim_C6 _).1 (by decide) "lon" ⟨[], ⟨[], [3]⟩, true, ⟨none, none, none⟩⟩
      (by decide) rfl "X"
  · exact (claim_C6 _).2 (by intro nc h; right; cases h with
      | head => decide
      | tail _ h2 => cases h2)

/-- C8: the structured (curvilinear) builder rejects any request with a
component dimension immediately — before any coordinate lookup or array
work, for every data array and axis configuration — and rejects a
request with exactly one axis name with the error directing to the
rectilinear kind. -/
theorem claim_C8 :
    (∀ (da : DataArray) (x y z order0 : Option String) (scales : List (String × ℚ))
      (c : String),
      structured_mesh da x y z order0 (some c) scales =
        .error "Component is not currently supported for StructuredGrid") ∧
    (∀ (da : DataArray) (nm : String) (order0 : Option String)
      (scales : List (String × ℚ)),
      structured_mesh da (some nm) none none order0 none scales =
        .error "One dimensional structured grids should be rectilinear grids." ∧
      structured_mesh da none (some nm) none order0 none scales =
        .error "One dimensional structured grids should be rectilinear grids." ∧
      structured_mesh da none none (some nm) order0 none scales =
        .error "One dimensional structured grids should be rectilinear grids.") := by
  constructor
  · intro da x y z order0 scales c
    rfl
  · intro da nm order0 scales
    exact ⟨rfl, rfl, rfl⟩

theorem bind_ok_eq {ε α β : Type} (a : α) (f : α → Except ε β) :
    (Except.ok a : Except ε α) >>= f = f a := rfl

theorem bind_error_eq {ε α β : Type} (e : ε) (f : α → Except ε β) :
    (Except.error e : Except ε α) >>= f = .error e := rfl

theorem rates_of_floor_pos (r : ℚ) (shape : List Nat) (hlen : shape.length ≤ 3)
    (hfl : ∀ si ∈ shape, 1 ≤ ⌊(si : ℚ) * r⌋) :
    resolution_to_sampling_rate r shape =
      .ok ((shape.map fun (si : Nat) => some ⌈(si : ℚ) / (⌊(si : ℚ) * r⌋ : ℚ)⌉)
        ++ List.replicate (3 - shape.length) (some 0)) := by
  unfold resolution_to_sampling_rate
  rw [if_neg (by omega)]
  refine congrArg (fun l => Except.ok (l ++ List.replicate (3 - shape.length) (some 0))) ?_
  induction shape with
  | nil => rfl
  | cons a t ih =>
    simp only [List.map_cons, List.cons.injEq]
    constructor
    · rw [if_neg (by have := hfl a (List.mem_cons_self _ _); omega)]
    · exact ih (by simp only [List.length_cons] at hlen; omega)
        fun si hm => hfl si (List.mem_cons_of_mem _ hm)

theorem one_le_rate {si : Nat} {r : ℚ} (hr1 : r ≤ 1) (h : 1 ≤ ⌊(si : ℚ) * r⌋) :
    1 ≤ ⌈(si : ℚ) / (⌊(si : ℚ) * r⌋ : ℚ)⌉ := by
  have hn0 : (0 : ℚ) < (⌊(si : ℚ) * r⌋ : ℚ) := by exact_mod_cast h
  have hfle : ((⌊(si : ℚ) * r⌋ : ℤ) : ℚ) ≤ (si : ℚ) * r := Int.floor_le _
  have hsi : (0 : ℚ) ≤ (si : ℚ) := by positivity
  have hsr : (si : ℚ) * r ≤ (si : ℚ) := by nlinarith
  have hpos : 0 < (si : ℚ) / (⌊(si : ℚ) * r⌋ : ℚ) := div_pos (by linarith) hn0
  have := Int.ceil_pos.mpr hpos
  omega

theorem subsample_strides (s : SourceState) (r : ℚ) (da : DataArray)
    (hs : s.slicing = none) (hr : s.resolution = some r)
    (h1 : 1 ≤ da.arr.shape.length) (h3 : da.arr.shape.length ≤ 3)
    (hfl : ∀ si ∈ da.arr.shape, 1 ≤ ⌊(si : ℚ) * r⌋) :
    subsampleState s da =
      strideDA da (da.arr.shape.map fun (si : Nat) => ⌈(si : ℚ) / (⌊(si : ℚ) * r⌋ : ℚ)⌉) := by
  have hrates := rates_of_floor_pos r da.arr.shape h3 hfl
  unfold subsampleState
  rw [if_neg (by rw [hs, hr]; simp)]
  simp only [hr]
  rw [hrates, bind_ok_eq]
  unfold NDArray.ndim
  rcases hsh : da.arr.shape with _ | ⟨a, _ | ⟨b, _ | ⟨c, _ | ⟨d, t4⟩⟩⟩⟩
  · rw [hsh] at h1; simp at h1
  · rw [if_pos (by simp)]
    rfl
  · rw [if_neg (by simp), if_pos (by simp)]
    rfl
  · rw [if_neg (by simp), if_neg (by simp), if_pos (by simp)]
    rfl
  · rw [hsh] at h3
    simp only [List.length_cons] at h3
    omega

/-- Reports whether the computed sampling rate for axis `i` has a
defined integer value at all. -/
def strideDefinedAt (r : ℚ) (shape : List Nat) (i : Nat) : Bool :=
  match resolution_to_sampling_rate r shape with
  | .ok l => (l.getD i (some 0)).isSome
  | .error _ => false

/-- C2 counterexample: for the in-scope resolution fraction `r = 2/5`
and the one-axis shape `(2)`, the per-axis target count `floor(2 · 2/5)`
is `0`; the code divides by zero and the integer cast of the resulting
non-finite float leaves the stride undefined — there is no stride value
at all, in particular none equal to `ceil(s/floor(s·r))` with a minimum
of 1. -/
theorem claim_C2_counterexample :
    (0 < (2 : ℚ)/5 ∧ (2 : ℚ)/5 ≤ 1 ∧ ([2] : List Nat).length ≤ 3) ∧
    resolution_to_sampling_rate ((2 : ℚ)/5) [2] = .ok [none, some 0, some 0] ∧
    strideDefinedAt ((2 : ℚ)/5) [2] 0 = false := by
  have h0 : ⌊((2 : ℕ) : ℚ) * (2/5)⌋ = 0 := by norm_num
  have hok : resolution_to_sampling_rate ((2 : ℚ)/5) [2] = .ok [none, some 0, some 0] := by
    unfold resolution_to_sampling_rate
    rw [if_neg (by norm_num)]
    simp [h0]
    norm_num
  refine ⟨⟨by norm_num, by norm_num, by norm_num⟩, hok, ?_⟩
  unfold strideDefinedAt
  rw [hok]
  rfl

/-- C2 (amended): for a data array of at most 3 dimensions and a
resolution fraction `r ∈ (0,1]` such that every axis satisfies
`floor(s_i · r) ≥ 1`, the per-axis stride is `ceil(s_i / floor(s_i · r))`
(automatically at least 1), zero-padded to three entries, and
`_subsample` applies exactly these strides as strided slices
independently on the first `ndim` dimensions; when `floor(s_i · r) = 0`
the stride is undefined (division by zero followed by a non-finite int
cast — see the counterexample); arrays with more than 3 dimensions raise
(a negative pad width). -/
theorem claim_C2_amended (r : ℚ) (shape : List Nat) (hr0 : 0 < r) (hr1 : r ≤ 1) :
    (3 < shape.length →
      resolution_to_sampling_rate r shape =
        .error "ValueError: index can not contain negative values (np.pad)") ∧
    (shape.length ≤ 3 → (∀ si ∈ shape, 1 ≤ ⌊(si : ℚ) * r⌋) →
      resolution_to_sampling_rate r shape =
        .ok ((shape.map fun (si : Nat) => some ⌈(si : ℚ) / (⌊(si : ℚ) * r⌋ : ℚ)⌉)
          ++ List.replicate (3 - shape.length) (some 0)) ∧
      ∀ si ∈ shape, 1 ≤ ⌈(si : ℚ) / (⌊(si : ℚ) * r⌋ : ℚ)⌉) ∧
    (∀ (s : SourceState) (da : DataArray), s.slicing = none → s.resolution = some r →
      da.arr.shape = shape →
      (3 < shape.length →
        subsampleState s da =
          .error "ValueError: index can not contain negative values (np.pad)") ∧
      (1 ≤ shape.length → shape.length ≤ 3 → (∀ si ∈ shape, 1 ≤ ⌊(si : ℚ) * r⌋) →
        subsampleState s da =
          strideDA da (shape.map fun (si : Nat) => ⌈(si : ℚ) / (⌊(si : ℚ) * r⌋ : ℚ)⌉))) := by
  refine ⟨?_, ?_, ?_⟩
  · intro hlen
    unfold resolution_to_sampling_rate
    rw [if_pos (by omega)]
  · intro hlen hfl
    exact ⟨rates_of_floor_pos r shape hlen hfl,
      fun si hm => one_le_rate hr1 (hfl si hm)⟩
  · intro s da hs hr hsh
    constructor
    · intro hlen
      have herr : resolution_to_sampling_rate r da.arr.shape =
          .error "ValueError: index can not contain negative values (np.pad)" := by
        unfold resolution_to_sampling_rate
        rw [if_pos (by rw [hsh]; omega)]
      unfold subsampleState
      rw [if_neg (by rw [hs, hr]; simp)]
      simp only [hr]
      rw [herr, bind_error_eq]
    · intro hl1 hl3 hfl
      have h := subsample_strides s r da hs hr (by rw [hsh]; omega) (by rw [hsh]; omega)
        (by rw [hsh]; exact hfl)
      rw [h, hsh]

/-- Witness for C2 (amended): the example grid `(25, 53)` at half
resolution yields the defined strides `(3, 3)`. -/
theorem claim_C2_amended_witness :
    resolution_to_sampling_rate ((1 : ℚ)/2) [25, 53] = .ok [some 3, some 3, some 0] := by
  have h := ((claim_C2_amended ((1 : ℚ)/2) [25, 53] (by norm_num) (by norm_num)).2.1
    (by norm_num)
    (by
      intro si hm
      rcases List.mem_cons.1 hm with h | h
      · rw [h]; norm_num
      · rw [List.mem_singleton.1 h]; norm_num)).1
  rw [h]
  have h25 : ⌊((25 : ℕ) : ℚ) * (1/2)⌋ = (12 : ℤ) := by norm_num
  have h53 : ⌊((53 : ℕ) : ℚ) * (1/2)⌋ = (26 : ℤ) := by norm_num
  simp only [List.map_cons, List.map_nil, h25, h53]
  have hc25 : ⌈((25 : ℕ) : ℚ) / ((12 : ℤ) : ℚ)⌉ = 3 := by
    rw [Int.ceil_eq_iff] <;> norm_num
  have hc53 : ⌈((53 : ℕ) : ℚ) / ((26 : ℤ) : ℚ)⌉ = 3 := by
    rw [Int.ceil_eq_iff] <;> norm_num
  simp only [hc25, hc53]
  rfl

/-- C4: explicit slicing and resolution subsampling are mutually
exclusive, slicing winning outright: with a slice spec set, `_subsample`
is the identity and the sliced-array computation (result and cache) is
completely independent of the resolution setting; with no slice spec and
a resolution set, the computed sliced array is the indexed array with
the resolution strides applied. -/
theorem claim_C4 :
    (∀ (s : SourceState) (sl : List (String × (ℤ × ℤ × ℤ))), s.slicing = some sl →
      (∀ da, subsampleState s da = .ok da) ∧
      (∀ res : Option ℚ,
        (computeSliced { s with resolution := res }).1 = (computeSliced s).1 ∧
        (computeSliced { s with resolution := res }).2.sliced_cache
          = (computeSliced s).2.sliced_cache)) ∧
    (∀ (s : SourceState) (r : ℚ) (da0 : DataArray), s.slicing = none →
      s.resolution = some r → s.data_array = some da0 →
      ∀ da1, da0.isel (buildIndexing s) = .ok da1 →
      1 ≤ da1.arr.shape.length → da1.arr.shape.length ≤ 3 →
      (∀ si ∈ da1.arr.shape, 1 ≤ ⌊(si : ℚ) * r⌋) →
      computeSliced s =
        (match strideDA da1 (da1.arr.shape.map fun (si : Nat) =>
            ⌈(si : ℚ) / (⌊(si : ℚ) * r⌋ : ℚ)⌉) with
         | .error e => (.error e, s)
         | .ok da2 => (.ok (some da2), { s with sliced_cache := some da2 }))) := by
  have hsub : ∀ (s' : SourceState) (sl : List (String × (ℤ × ℤ × ℤ))),
      s'.slicing = some sl → ∀ da, subsampleState s' da = .ok da := by
    intro s' sl hs' da
    unfold subsampleState
    rw [if_pos (by rw [hs']; simp)]
  constructor
  · intro s sl hs
    refine ⟨hsub s sl hs, ?_⟩
    intro res
    obtain ⟨dao, reso, xo, yo, zo, oro, co, mto, tmo, tio, zio, slo, dso, aro, cmo, pio,
      sco, pco, mco⟩ := s
    have hs' : slo = some sl := hs
    dsimp only
    unfold computeSliced
    cases dao with
    | none => exact ⟨rfl, rfl⟩
    | some da0 =>
      have hp : slicedPipeline
          ⟨some da0, res, xo, yo, zo, oro, co, mto, tmo, tio, zio, slo, dso, aro, cmo, pio,
            sco, pco, mco⟩ da0 =
          slicedPipeline
          ⟨some da0, reso, xo, yo, zo, oro, co, mto, tmo, tio, zio, slo, dso, aro, cmo, pio,
            sco, pco, mco⟩ da0 := by
        unfold slicedPipeline
        have hf : (fun da1 => subsampleState
            ⟨some da0, res, xo, yo, zo, oro, co, mto, tmo, tio, zio, slo, dso, aro, cmo, pio,
              sco, pco, mco⟩ da1)
            = fun da1 => subsampleState
            ⟨some da0, reso, xo, yo, zo, oro, co, mto, tmo, tio, zio, slo, dso, aro, cmo, pio,
              sco, pco, mco⟩ da1 := by
          funext da1
          rw [hsub _ sl hs' da1, hsub _ sl hs' da1]
        exact congrArg _ hf
      dsimp only
      rw [hp]
      cases slicedPipeline
          ⟨some da0, reso, xo, yo, zo, oro, co, mto, tmo, tio, zio, slo, dso, aro, cmo, pio,
            sco, pco, mco⟩ da0 with
      | error e => exact ⟨rfl, rfl⟩
      | ok da2 => exact ⟨rfl, rfl⟩
  · intro s r da0 hs hr hda da1 hisel h1 h3 hfl
    unfold computeSliced
    rw [hda]
    unfold slicedPipeline
    dsimp only
    rw [hisel, bind_ok_eq, subsample_strides s r da1 hs hr h1 h3 hfl]

def srcC4da : DataArray := ⟨some "v", ["x"], ⟨[4], [10, 20, 30, 40]⟩, []⟩

def srcC4 : SourceState :=
  { data_array := some srcC4da, resolution := some (1/2), x := none, y := none, z := none,
    order := "C", component := none, mesh_type := none, time := none, time_index := 0,
    z_index := none, slicing := none, dataset := none, arrays := [], computed := [],
    pipeline := [], sliced_cache := none, persisted_cache := none, mesh_cache := none }

/-- Witness for C4: with a slice spec set, subsampling is the identity;
with no slice spec and resolution 1/2 on a length-4 array, the computed
sliced array is the stride-2 slice `[10, 30]`. -/
theorem claim_C4_witness :
    subsampleState { srcC4 with slicing := some [("x", (0, 4, 2))] } srcC4da = .ok srcC4da ∧
    (computeSliced srcC4).1 = .ok (some ⟨some "v", ["x"], ⟨[2], [10, 30]⟩, []⟩) := by
  constructor
  · exact (claim_C4.1 { srcC4 with slicing := some [("x", (0, 4, 2))] }
      [("x", (0, 4, 2))] rfl).1 srcC4da
  · have hfl : ∀ si ∈ ([4] : List Nat), 1 ≤ ⌊(si : ℚ) * (1/2)⌋ := by
      intro si hm
      rw [List.mem_singleton.1 hm]
      norm_num
    have h := claim_C4.2 srcC4 (1/2) srcC4da rfl rfl rfl srcC4da rfl
      (by decide) (by decide) hfl
    have hm : (srcC4da.arr.shape.map fun (si : Nat) =>
        ⌈(si : ℚ) / (⌊(si : ℚ) * (1/2)⌋ : ℚ)⌉) = [2] := by
      simp only [srcC4da, List.map_cons, List.map_nil]
      have hf : ⌊((4 : ℕ) : ℚ) * (1/2)⌋ = (2 : ℤ) := by norm_num
      rw [hf]
      have hc : ⌈((4 : ℕ) : ℚ) / ((2 : ℤ) : ℚ)⌉ = 2 := by
        rw [Int.ceil_eq_iff] <;> norm_num
      rw [hc]
    rw [hm] at h
    have hst : strideDA srcC4da [2] = .ok ⟨some "v", ["x"], ⟨[2], [10, 30]⟩, []⟩ := by decide
    rw [hst] at h
    rw [h]

theorem flatten_replicate_nil {α : Type} (k : Nat) :
    (List.replicate k ([] : List α)).flatten = [] := by
  induction k with
  | zero => rfl
  | succ m ih => simp [List.replicate, ih]

theorem chunkExact_eq_self {α : Type} {l : List α} (h1 : 1 ≤ l.length) :
    chunkExact l.length l = [l] := by
  cases l with
  | nil => simp at h1
  | cons x xs =>
    show chunkExactAux (x :: xs).length (x :: xs).length (x :: xs) = [x :: xs]
    conv in chunkExactAux _ ((x :: xs).length) _ => rw [List.length_cons]
    unfold chunkExactAux
    rw [if_neg (by simp)]
    rw [List.take_of_length_le (by simp), List.drop_eq_nil_of_le (by simp)]
    have hnil : ∀ n fuel : Nat, chunkExactAux (α := α) n fuel [] = [] := by
      intro n fuel
      cases fuel <;> rfl
    rw [hnil]

theorem npRepeat_wrap (sh : List Nat) (fl : List ℚ) (k : Nat) (hwf : fl.length = sh.prod) :
    npRepeat ⟨1 :: sh, fl⟩ k 0 = ⟨k :: sh, (List.replicate k fl).flatten⟩ := by
  unfold npRepeat NDArray.innerSize
  dsimp only
  by_cases hz : sh.prod = 0
  · have hfl : fl = [] := List.eq_nil_of_length_eq_zero (by rw [hwf, hz])
    subst hfl
    simp [hz, chunkExact, chunkExactAux, flatten_replicate_nil]
  · have h1 : 1 ≤ fl.length := by rw [hwf]; omega
    have hch : chunkExact ((1 :: sh).drop (0 + 1)).prod fl = [fl] := by
      have : ((1 :: sh).drop (0 + 1)).prod = fl.length := by
        simp [hwf]
      rw [this]
      exact chunkExact_eq_self h1
    rw [hch]
    simp

theorem coerceOne_none (maxi nd : Nat) (shape : List Nat) :
    coerceOne maxi nd shape none = .ok none := rfl

theorem coerceOne_pass {a : NDArray} {shape : List Nat} (maxi nd : Nat) (h : a.shape = shape) :
    coerceOne maxi nd shape (some a) = .ok (some a) := by
  simp only [coerceOne]
  rw [if_pos h]

/-- C3 counterexample: a 1-D x paired with a 2-D y — dimensionalities
that replication could reconcile — are not brought to a common shape:
the broadcaster returns without error, but the repeat of the 1-D array
produced shape (1, 4) against the common shape (2, 2). -/
theorem claim_C3_counterexample :
    _coerce_shapes (some ⟨[2], [0, 1]⟩) (some ⟨[2, 2], [0, 0, 1, 1]⟩) none =
      .ok [some ⟨[1, 4], [0, 0, 1, 1]⟩, some ⟨[2, 2], [0, 0, 1, 1]⟩, none] ∧
    ([1, 4] : List Nat) ≠ [2, 2] := by
  exact ⟨by decide, by decide⟩

theorem coerceScan_x (a : NDArray) (y z : Option NDArray) (h1 : 1 ≤ a.ndim)
    (hy : ∀ b, y = some b → b.ndim ≤ a.ndim) (hz : ∀ b, z = some b → b.ndim ≤ a.ndim) :
    coerceScan (some a) y z = (0, a.ndim) := by
  unfold coerceScan
  dsimp only
  have e1 : (if a.ndim > 0 then ((0 : Nat), a.ndim) else ((0 : Nat), (0 : Nat)))
      = (0, a.ndim) := if_pos (by omega)
  rw [e1]
  rcases y with _ | b <;> rcases z with _ | c <;> dsimp only
  · have hc := hz c rfl
    rw [if_neg (by omega)]
  · have hb := hy b rfl
    rw [if_neg (by omega)]
  · have hb := hy b rfl
    have hc := hz c rfl
    have e2 : (if b.ndim > a.ndim then ((1 : Nat), b.ndim) else ((0 : Nat), a.ndim))
        = (0, a.ndim) := if_neg (by omega)
    rw [e2]
    dsimp only
    rw [if_neg (by omega)]

theorem coerceScan_y (b : NDArray) (z : Option NDArray) (h1 : 1 ≤ b.ndim)
    (hz : ∀ c, z = some c → c.ndim ≤ b.ndim) :
    coerceScan none (some b) z = (1, b.ndim) := by
  unfold coerceScan
  dsimp only
  have e1 : (if b.ndim > 0 then ((1 : Nat), b.ndim) else ((0 : Nat), (0 : Nat)))
      = (1, b.ndim) := if_pos (by omega)
  rw [e1]
  rcases z with _ | c <;> dsimp only
  · have hc := hz c rfl
    rw [if_neg (by omega)]

theorem coerceScan_zOnly (c : NDArray) (h1 : 1 ≤ c.ndim) :
    coerceScan none none (some c) = (2, c.ndim) := by
  unfold coerceScan
  dsimp only
  rw [if_pos (by omega)]

theorem coerceScan_zTop (x y : Option NDArray) (za : NDArray)
    (hx : ∀ a, x = some a → a.ndim < za.ndim) (hy : ∀ a, y = some a → a.ndim < za.ndim)
    (h1 : 1 ≤ za.ndim) :
    coerceScan x y (some za) = (2, za.ndim) := by
  unfold coerceScan
  rcases x with _ | a <;> rcases y with _ | b <;> dsimp only
  · rw [if_pos (by omega)]
  · have hb := hy b rfl
    generalize hq : (if b.ndim > 0 then ((1 : Nat), b.ndim) else ((0 : Nat), (0 : Nat))) = q
    have hq2 : q.2 < za.ndim := by
      rw [← hq]
      split <;> first | (dsimp only; omega) | omega
    rw [if_pos (by omega)]
  · have ha := hx a rfl
    generalize hp : (if a.ndim > 0 then ((0 : Nat), a.ndim) else ((0 : Nat), (0 : Nat))) = p
    have hp2 : p.2 < za.ndim := by
      rw [← hp]
      split <;> first | (dsimp only; omega) | omega
    rw [if_pos (by omega)]
  · have ha := hx a rfl
    have hb := hy b rfl
    generalize hp : (if a.ndim > 0 then ((0 : Nat), a.ndim) else ((0 : Nat), (0 : Nat))) = p
    have hp2 : p.2 < za.ndim := by
      rw [← hp]
      split <;> first | (dsimp only; omega) | omega
    generalize hq : (if b.ndim > p.2 then ((1 : Nat), b.ndim) else p) = q
    have hq2 : q.2 < za.ndim := by
      rw [← hq]
      split <;> first | (dsimp only; omega) | omega
    rw [if_pos (by omega)]

theorem coerceOne_tail {a za : NDArray} (hz : za.shape ≠ [])
    (ht : a.shape = za.shape.tail) (hwf : a.wf) :
    coerceOne 2 za.ndim za.shape (some a) =
      .ok (some ⟨za.shape.headD 0 :: a.shape,
        (List.replicate (za.shape.headD 0) a.flat).flatten⟩) := by
  rcases hsh : za.shape with _ | ⟨h0, t0⟩
  · exact absurd hsh hz
  have hlen : a.shape.length = t0.length := by
    rw [ht, hsh]
    rfl
  have hndim : za.ndim = t0.length + 1 := by
    unfold NDArray.ndim
    rw [hsh]
    rfl
  simp only [coerceOne]
  rw [if_neg (by
    intro hEq
    have := congrArg List.length hEq
    rw [hlen] at this
    simp at this)]
  rw [if_pos (by unfold NDArray.ndim; rw [hsh]; simp only [List.length_cons]; omega)]
  rw [if_pos (by simp)]
  rw [if_neg (by unfold NDArray.ndim; omega)]
  show Except.ok (some (npRepeat ⟨1 :: a.shape, a.flat⟩ h0 0)) =
    Except.ok (some ⟨h0 :: a.shape, (List.replicate h0 a.flat).flatten⟩)
  rw [npRepeat_wrap a.shape a.flat h0 hwf]

/-- C3 (amended): the broadcaster's contract holds only in restricted
configurations.  (A) Arrays already of one common (non-scalar) shape
pass through unchanged, absent arrays pass through as absent.  (B) When
the highest-dimensional array present is the *last* (z) argument and
every present lower-dimensional array's shape equals the common shape
minus its leading axis, the lower-dimensional arrays are replicated
`shape[0]` times along a new leading axis, reaching the common shape.
(C) A present array of equal (maximal) dimensionality but different
shape raises a broadcast error.  Outside these configurations the code
does not reconcile reconcilable shapes: it raises an index/axis error
or returns arrays not matching the common shape (see the
counterexample). -/
theorem claim_C3_amended :
    (∀ (x y z : Option NDArray) (sh : List Nat), sh ≠ [] →
      (∀ a, x = some a → a.shape = sh) →
      (∀ a, y = some a → a.shape = sh) →
      (∀ a, z = some a → a.shape = sh) →
      ¬ (x = none ∧ y = none ∧ z = none) →
      _coerce_shapes x y z = .ok [x, y, z]) ∧
    (∀ (x y : Option NDArray) (za : NDArray), za.shape ≠ [] →
      (∀ a, x = some a → a.shape = za.shape.tail ∧ a.wf) →
      (∀ a, y = some a → a.shape = za.shape.tail ∧ a.wf) →
      _coerce_shapes x y (some za) =
        .ok [x.map fun a => ⟨za.shape.headD 0 :: a.shape,
               (List.replicate (za.shape.headD 0) a.flat).flatten⟩,
             y.map fun a => ⟨za.shape.headD 0 :: a.shape,
               (List.replicate (za.shape.headD 0) a.flat).flatten⟩,
             some za]) ∧
    (∀ (xa ya : NDArray) (z : Option NDArray), 1 ≤ xa.ndim →
      ya.ndim = xa.ndim → ya.shape ≠ xa.shape →
      (∀ a, z = some a → a.ndim ≤ xa.ndim) →
      _coerce_shapes (some xa) (some ya) z =
        .error "ValueError: Cannot broadcast coordinate arrays with shapes that do not match") := by
  refine ⟨?_, ?_, ?_⟩
  · intro x y z sh hsh hx hy hz hnone
    have hlen : 0 < sh.length := List.length_pos.2 hsh
    have hnd : ∀ (a : NDArray), a.shape = sh → a.ndim = sh.length := by
      intro a ha
      unfold NDArray.ndim
      rw [ha]
    rcases x with _ | a
    · rcases y with _ | b
      · rcases z with _ | c
        · exact absurd ⟨rfl, rfl, rfl⟩ hnone
        · have hc := hz c rfl
          unfold _coerce_shapes
          rw [coerceScan_zOnly c (by rw [hnd c hc]; omega)]
          dsimp only
          rw [if_neg (by rw [hnd c hc]; omega)]
          rw [coerceOne_none, coerceOne_pass _ _ rfl]
          simp only [bind_ok_eq]
      · have hb := hy b rfl
        unfold _coerce_shapes
        rw [coerceScan_y b z (by rw [hnd b hb]; omega)
          (fun c hcz => by rw [hnd c (hz c hcz), hnd b hb])]
        dsimp only
        rw [if_neg (by rw [hnd b hb]; omega)]
        rcases z with _ | c
        · rw [coerceOne_none, coerceOne_pass _ _ rfl]
          simp only [bind_ok_eq]
        · have hc := hz c rfl
          rw [coerceOne_none, coerceOne_pass _ _ rfl, coerceOne_pass _ _ (hc.trans hb.symm)]
          simp only [bind_ok_eq]
    · have ha := hx a rfl
      unfold _coerce_shapes
      rw [coerceScan_x a y z (by rw [hnd a ha]; omega)
        (fun b hby => by rw [hnd b (hy b hby), hnd a ha])
        (fun c hcz => by rw [hnd c (hz c hcz), hnd a ha])]
      dsimp only
      rw [if_neg (by rw [hnd a ha]; omega)]
      rw [coerceOne_pass _ _ rfl]
      simp only [bind_ok_eq]
      rcases y with _ | b <;> rcases z with _ | c
      · rw [coerceOne_none]
        simp only [bind_ok_eq]
      · have hc := hz c rfl
        rw [coerceOne_none, coerceOne_pass _ _ (hc.trans ha.symm)]
        simp only [bind_ok_eq]
      · have hb := hy b rfl
        rw [coerceOne_pass _ _ (hb.trans ha.symm), coerceOne_none]
        simp only [bind_ok_eq]
      · have hb := hy b rfl
        have hc := hz c rfl
        rw [coerceOne_pass _ _ (hb.trans ha.symm), coerceOne_pass _ _ (hc.trans ha.symm)]
        simp only [bind_ok_eq]
  · intro x y za hz hx hy
    have h1 : 1 ≤ za.ndim := by
      unfold NDArray.ndim
      exact List.length_pos.2 hz
    have hlt : ∀ (a : NDArray), a.shape = za.shape.tail → a.ndim < za.ndim := by
      intro a ha
      unfold NDArray.ndim
      rw [ha]
      rcases hsh : za.shape with _ | ⟨h0, t0⟩
      · exact absurd hsh hz
      · simp
    unfold _coerce_shapes
    rw [coerceScan_zTop x y za (fun a hax => hlt a (hx a hax).1)
      (fun a hay => hlt a (hy a hay).1) h1]
    dsimp only
    rw [if_neg (by omega)]
    rcases x with _ | a <;> rcases y with _ | b
    · rw [coerceOne_none, coerceOne_pass _ _ rfl]
      simp only [bind_ok_eq]
      rfl
    · obtain ⟨hbt, hbw⟩ := hy b rfl
      rw [coerceOne_none, coerceOne_tail hz hbt hbw, coerceOne_pass _ _ rfl]
      simp only [bind_ok_eq]
      rfl
    · obtain ⟨hat, haw⟩ := hx a rfl
      rw [coerceOne_tail hz hat haw, coerceOne_none, coerceOne_pass _ _ rfl]
      simp only [bind_ok_eq]
      rfl
    · obtain ⟨hat, haw⟩ := hx a rfl
      obtain ⟨hbt, hbw⟩ := hy b rfl
      rw [coerceOne_tail hz hat haw, coerceOne_tail hz hbt hbw, coerceOne_pass _ _ rfl]
      simp only [bind_ok_eq]
      rfl
  · intro xa ya z h1 hyn hysh hzn
    unfold _coerce_shapes
    rw [coerceScan_x xa (some ya) z (by omega)
      (fun b hby => by cases hby; omega) hzn]
    dsimp only
    rw [if_neg (by omega)]
    rw [coerceOne_pass _ _ rfl]
    simp only [bind_ok_eq]
    have herr : coerceOne 0 xa.ndim xa.shape (some ya) =
        .error "ValueError: Cannot broadcast coordinate arrays with shapes that do not match" := by
      simp only [coerceOne]
      rw [if_neg hysh, if_neg (by omega)]
    rw [herr, bind_error_eq]

/-- Witness for C3 (amended): 2-D lon/lat arrays of shape (2, 3) under a
3-D z of shape (2, 2, 3) are replicated along a new leading axis to the
common shape. -/
theorem claim_C3_amended_witness :
    _coerce_shapes (some ⟨[2, 3], [0, 1, 2, 3, 4, 5]⟩) none
      (some ⟨[2, 2, 3], [0, 1, 2, 3, 4, 5, 6, 7, 8, 9, 10, 11]⟩) =
      .ok [some ⟨[2, 2, 3], [0, 1, 2, 3, 4, 5, 0, 1, 2, 3, 4, 5]⟩, none,
        some ⟨[2, 2, 3], [0, 1, 2, 3, 4, 5, 6, 7, 8, 9, 10, 11]⟩] := by
  have h := claim_C3_amended.2.1 (some ⟨[2, 3], [0, 1, 2, 3, 4, 5]⟩) none
    ⟨[2, 2, 3], [0, 1, 2, 3, 4, 5, 6, 7, 8, 9, 10, 11]⟩ (by decide)
    (by intro a ha; cases ha; exact ⟨by decide, by decide⟩)
    (by intro a ha; cases ha)
  rw [h]
  decide

/-- Whether a fallible computation succeeded. -/
def exceptIsOk {ε α : Type} : Except ε α → Bool
  | .ok _ => true
  | .error _ => false

theorem axisCoord_ok {da : DataArray} {o : Option String} {scales : List (String × ℚ)}
    (h : ∀ k, o = some k → ∃ v, getArray da k (scaleOf scales k) = .ok v) :
    ∃ l, axisCoord da o scales = .ok l := by
  cases o with
  | none => exact ⟨[0], rfl⟩
  | some k =>
    obtain ⟨v, hv⟩ := h k rfl
    refine ⟨v.flat, ?_⟩
    simp only [axisCoord]
    rw [hv]
    rfl

def daC7 : DataArray :=
  ⟨some "rgb", ["t", "band"], ⟨[3, 2], [0, 1, 2, 3, 4, 5]⟩,
    [("cx", ⟨["t"], ⟨[3], [0, 1, 2]⟩, true, ⟨none, none, none⟩⟩)]⟩

/-- C7 counterexample: with a component dimension configured, a request
naming one axis on 2-dimensional data builds a mesh successfully — the
component dimension counts towards the dimensionality check — so the
builder does not raise whenever the number of specified axes differs
from the data array's dimensionality. -/
theorem claim_C7_counterexample :
    (1 : Nat) ≠ daC7.arr.ndim ∧
    exceptIsOk (rectilinear_mesh daC7 (some "cx") none none (some "C") (some "band") [])
      = true := by
  exact ⟨by decide, by decide⟩

def daC7s : DataArray :=
  ⟨some "temperature", ["x"], ⟨[3], [15, 16, 17]⟩,
    [("lon", ⟨["x"], ⟨[3], [100, 101, 102]⟩, true, ⟨none, none, none⟩⟩),
     ("lat", ⟨["x"], ⟨[3], [42, 41, 40]⟩, true, ⟨none, none, none⟩⟩)]⟩

/-- C7 (amended): the rectilinear builder raises a dimension-mismatch
error whenever the number of specified axes — plus one when a component
dimension is given — differs from the data array's dimensionality,
distinguishing the too-many case (instructing to leave out Y and/or Z)
from the too-few case (instructing to add axes or pre-index non-spatial
dimensions); in particular on 1-D data of length 3, requesting only x
succeeds with 3 points while requesting x and y raises the too-many
variant. -/
theorem claim_C7_amended :
    (∀ (da : DataArray) (x y z order0 component0 : Option String)
      (scales : List (String × ℚ)) (eff : Nat),
      eff = 3 - ([x, y, z].countP fun o => o.isNone)
        + (match component0 with | some _ => 1 | none => 0) →
      1 ≤ 3 - ([x, y, z].countP fun o => o.isNone) →
      (∀ k, x = some k → ∃ v, getArray da k (scaleOf scales k) = .ok v) →
      (∀ k, y = some k → ∃ v, getArray da k (scaleOf scales k) = .ok v) →
      (∀ k, z = some k → ∃ v, getArray da k (scaleOf scales k) = .ok v) →
      (∀ c, component0 = some c → da.dims.contains c = true) →
      eff ≠ da.arr.ndim →
      rectilinear_mesh da x y z order0 component0 scales =
        (if eff > da.arr.ndim then
          .error (rectMismatchMsg eff da.arr.ndim
            ++ ". Too many coordinate dimensions specified leave out Y and/or Z.")
        else
          .error (rectMismatchMsg eff da.arr.ndim
            ++ ". Too few coordinate dimensions specified. Be sure to specify "
            ++ "Y and/or Z or reduce the dimensionality of the DataArray by indexing "
            ++ "along non-spatial coordinates like Time."))) ∧
    rectilinear_mesh daC7s (some "lon") none none none none [] =
      .ok (PyMesh.rect [100, 101, 102] [0] [0]
        [("temperature", ⟨[3], [15, 16, 17]⟩)] []) ∧
    (PyMesh.rect [100, 101, 102] [0] [0]
      [("temperature", ⟨[3], [15, 16, 17]⟩)] []).nPoints = 3 ∧
    rectilinear_mesh daC7s (some "lon") (some "lat") none none none [] =
      .error (rectMismatchMsg 2 1
        ++ ". Too many coordinate dimensions specified leave out Y and/or Z.") := by
  refine ⟨?_, by decide, by decide, by decide⟩
  intro da x y z order0 component0 scales eff heff h1 hx hy hz hcomp hne
  subst heff
  unfold rectilinear_mesh
  rw [if_neg (by omega)]
  obtain ⟨xc, hxc⟩ := axisCoord_ok hx
  obtain ⟨yc, hyc⟩ := axisCoord_ok hy
  obtain ⟨zc, hzc⟩ := axisCoord_ok hz
  rw [hxc]
  simp only [bind_ok_eq]
  rw [hyc]
  simp only [bind_ok_eq]
  rw [hzc]
  simp only [bind_ok_eq]
  rcases component0 with _ | c
  · dsimp only
    simp only [bind_ok_eq, Nat.add_zero] at hne ⊢
    rw [if_pos (by omega)]
  · have hdc := hcomp c rfl
    have hcv : ∃ v, componentValues da c (order0.getD "C") = .ok v := by
      simp only [componentValues]
      rw [if_neg (by rw [hdc]; simp)]
      exact ⟨_, rfl⟩
    obtain ⟨cv, hcv⟩ := hcv
    dsimp only
    rw [hcv]
    simp only [bind_ok_eq]
    dsimp only at hne ⊢
    rw [if_pos (by omega)]

/-- Witness for C7 (amended): on the concrete 1-D data, requesting x and
y with no component raises the too-many error with the exact message. -/
theorem claim_C7_amended_witness :
    rectilinear_mesh daC7s (some "lon") (some "lat") none none none [] =
      .error ("Dimensional mismatch between specified X, Y, Z coords and "
        ++ "dimensionality of DataArray (2 vs 1). "
        ++ "Too many coordinate dimensions specified leave out Y and/or Z.") := by
  have h := claim_C7_amended.1 daC7s (some "lon") (some "lat") none none none [] 2
    (by decide) (by decide)
    (fun k hk => by cases hk; exact ⟨_, rfl⟩)
    (fun k hk => by cases hk; exact ⟨_, rfl⟩)
    (fun k hk => by cases hk)
    (fun c hc => by cases hc)
    (by decide)
  rw [h]
  decide

/-- C9: round-trip — for a named data array whose dimensionality equals
the number of specified axes (no component dimension) and whose size
matches the coordinate lengths, building a rectilinear mesh and reading
back the value array under the array's name yields exactly the values
flattened in the configured order. -/
theorem claim_C9 (da : DataArray) (x y z : Option String) (order0 : Option String)
    (scales : List (String × ℚ)) (nm : String) (xc yc zc : List ℚ)
    (hname : da.name = some nm) (hnm : nm ≠ "")
    (haxes : 3 - ([x, y, z].countP fun o => o.isNone) = da.arr.ndim)
    (h1 : 1 ≤ da.arr.ndim)
    (hxc : axisCoord da x scales = .ok xc)
    (hyc : axisCoord da y scales = .ok yc)
    (hzc : axisCoord da z scales = .ok zc)
    (hlen : xc.length * yc.length * zc.length = da.arr.size) :
    rectilinear_mesh da x y z order0 none scales =
      .ok (PyMesh.rect xc yc zc
        [(nm, ⟨[da.arr.size], da.arr.ravelPy (order0.getD "C")⟩)] []) ∧
    (PyMesh.rect xc yc zc
        [(nm, ⟨[da.arr.size], da.arr.ravelPy (order0.getD "C")⟩)] []).getItem nm =
      some ⟨[da.arr.size], da.arr.ravelPy (order0.getD "C")⟩ := by
  constructor
  · unfold rectilinear_mesh
    rw [if_neg (by omega)]
    rw [hxc]
    simp only [bind_ok_eq]
    rw [hyc]
    simp only [bind_ok_eq]
    rw [hzc]
    simp only [bind_ok_eq]
    rw [if_neg (by omega)]
    have hpn : pyName da = nm := by
      unfold pyName
      rw [hname]
      dsimp only
      rw [if_neg hnm]
    rw [hpn]
    unfold PyMesh.setItem
    dsimp only [PyMesh.nPoints, List.headD]
    rw [if_pos (show da.arr.size = xc.length * yc.length * zc.length by omega)]
    rfl
  · simp [PyMesh.getItem, PyMesh.pointData, List.lookup]

def daC9 : DataArray :=
  ⟨some "temp", ["yy", "xx"], ⟨[2, 2], [1, 2, 3, 4]⟩,
    [("lat", ⟨["yy"], ⟨[2], [40, 41]⟩, true, ⟨none, none, none⟩⟩),
     ("lon", ⟨["xx"], ⟨[2], [10, 11]⟩, true, ⟨none, none, none⟩⟩)]⟩

/-- Witness for C9: a 2×2 array attached in Fortran order reads back as
its F-ravel `[1, 3, 2, 4]` under the array's name. -/
theorem claim_C9_witness :
    rectilinear_mesh daC9 (some "lon") (some "lat") none (some "F") none [] =
      .ok (PyMesh.rect [10, 11] [40, 41] [0]
        [("temp", ⟨[4], [1, 3, 2, 4]⟩)] []) ∧
    (PyMesh.rect [10, 11] [40, 41] [0]
        [("temp", ⟨[4], [1, 3, 2, 4]⟩)] []).getItem "temp" = some ⟨[4], [1, 3, 2, 4]⟩ := by
  have h := claim_C9 daC9 (some "lon") (some "lat") none (some "F") [] "temp"
    [10, 11] [40, 41] [0] rfl (by decide) (by decide) (by decide) rfl rfl rfl (by decide)
  have he : daC9.arr.ravelPy "F" = [1, 3, 2, 4] := by decide
  constructor
  · rw [h.1]
    decide
  · decide

/-! ## C10 — accessor mesh-kind dispatch -/

/-- Inversion of a successful `Except` bind. -/
theorem bind_ok_inv {ε α β : Type} {e : Except ε α} {f : α → Except ε β} {v : β}
    (h : e >>= f = Except.ok v) : ∃ a, e = Except.ok a ∧ f a = Except.ok v := by
  cases e with
  | error s =>
    rw [bind_error_eq] at h
    exact Except.noConfusion h
  | ok a =>
    rw [bind_ok_eq] at h
    exact ⟨a, rfl, h⟩

/-- Storing an array into a rectilinear grid never yields a poly mesh. -/
theorem setItem_rect_notPoly (a b c : List ℚ) (p o : List (String × NDArray))
    (nm : String) (v : NDArray) :
    ((PyMesh.rect a b c p o).setItem nm v).isPoly = false := by
  unfold PyMesh.setItem
  split <;> rfl

/-- Storing an array into a structured grid never yields a poly mesh. -/
theorem setItem_sgrid_notPoly (pts : List (ℚ × ℚ × ℚ)) (d : List Nat)
    (p o : List (String × NDArray)) (nm : String) (v : NDArray) :
    ((PyMesh.sgrid pts d p o).setItem nm v).isPoly = false := by
  unfold PyMesh.setItem
  split <;> rfl

/-- A successful rectilinear build is never a poly-data mesh. -/
theorem rect_mesh_notPoly (da : DataArray) (x y z o c : Option String)
    (sc : List (String × ℚ)) (m : PyMesh)
    (h : rectilinear_mesh da x y z o c sc = Except.ok m) : m.isPoly = false := by
  unfold rectilinear_mesh at h
  dsimp only at h
  split at h
  · exact Except.noConfusion h
  · obtain ⟨xc, hxc, h⟩ := bind_ok_inv h
    obtain ⟨yc, hyc, h⟩ := bind_ok_inv h
    obtain ⟨zc, hzc, h⟩ := bind_ok_inv h
    cases c with
    | some comp =>
      obtain ⟨v, hv, h⟩ := bind_ok_inv h
      simp only [bind_ok_eq] at h
      split at h
      · split at h <;> exact Except.noConfusion h
      · injection h with h
        subst h
        exact setItem_rect_notPoly _ _ _ _ _ _ _
    | none =>
      simp only [bind_ok_eq] at h
      split at h
      · split at h <;> exact Except.noConfusion h
      · injection h with h
        subst h
        exact setItem_rect_notPoly _ _ _ _ _ _ _

/-- A successful structured build is never a poly-data mesh. -/
theorem sgrid_mesh_notPoly (da : DataArray) (x y z o c : Option String)
    (sc : List (String × ℚ)) (m : PyMesh)
    (h : structured_mesh da x y z o c sc = Except.ok m) : m.isPoly = false := by
  unfold structured_mesh at h
  dsimp only at h
  cases c with
  | some comp => exact Except.noConfusion h
  | none =>
    obtain ⟨ps, hps, h⟩ := bind_ok_inv h
    injection h with h
    subst h
    exact setItem_sgrid_notPoly _ _ _ _ _ _

/-- **C10** — With no explicit `mesh_type`, the accessor chooses the mesh
kind solely from the maximum dimensionality `nd` of the resolved
coordinate arrays: the structured builder exactly when `nd > 1`, the
rectilinear builder otherwise; a successful auto-dispatched mesh is never
a poly-data (point-cloud) mesh, and the point-cloud builder is reached
exactly by passing `mesh_type = "points"` explicitly. -/
theorem claim_C10 (da : DataArray) (x y z order component : Option String)
    (scales : List (String × ℚ)) (x1 y1 z1 : Option String) (nd : Nat)
    (hax : resolveAxes da x y z = Except.ok (x1, y1, z1))
    (hnd : coordNdimFold da x1 y1 z1 = Except.ok nd) :
    (1 < nd → accessor_mesh da x y z order component none scales
      = structured_mesh da x1 y1 z1 order component scales) ∧
    (nd ≤ 1 → accessor_mesh da x y z order component none scales
      = rectilinear_mesh da x1 y1 z1 order component scales) ∧
    (∀ m, accessor_mesh da x y z order component none scales = Except.ok m →
      m.isPoly = false) ∧
    (accessor_mesh da x y z order component (some "points") scales
      = points_mesh da x1 y1 z1 order component scales) := by
  have hstruct : 1 < nd → accessor_mesh da x y z order component none scales
      = structured_mesh da x1 y1 z1 order component scales := by
    intro hgt
    unfold accessor_mesh
    rw [hax]
    simp only [bind_ok_eq]
    rw [hnd]
    simp only [bind_ok_eq]
    rw [if_pos (show nd > 1 from hgt)]
    rw [if_neg (show ("structured" : String) ≠ "points" by decide)]
    rw [if_neg (show ("structured" : String) ≠ "rectilinear" by decide)]
    rw [if_pos rfl]
  have hrect : nd ≤ 1 → accessor_mesh da x y z order component none scales
      = rectilinear_mesh da x1 y1 z1 order component scales := by
    intro hle
    unfold accessor_mesh
    rw [hax]
    simp only [bind_ok_eq]
    rw [hnd]
    simp only [bind_ok_eq]
    rw [if_neg (show ¬ nd > 1 by omega)]
    rw [if_neg (show ("rectilinear" : String) ≠ "points" by decide)]
    rw [if_pos rfl]
  have hpoly : ∀ m, accessor_mesh da x y z order component none scales = Except.ok m →
      m.isPoly = false := by
    intro m hm
    rcases Nat.lt_or_ge 1 nd with hgt | hle
    · rw [hstruct hgt] at hm
      exact sgrid_mesh_notPoly da x1 y1 z1 order component scales m hm
    · rw [hrect hle] at hm
      exact rect_mesh_notPoly da x1 y1 z1 order component scales m hm
  have hpoints : accessor_mesh da x y z order component (some "points") scales
      = points_mesh da x1 y1 z1 order component scales := by
    unfold accessor_mesh
    rw [hax]
    simp only [bind_ok_eq]
    rw [hnd]
    simp only [bind_ok_eq]
    rw [if_pos trivial]
  exact ⟨hstruct, hrect, hpoly, hpoints⟩

def daC10 : DataArray :=
  ⟨some "temp2", ["vv", "uu"], ⟨[2, 3], [1, 2, 3, 4, 5, 6]⟩,
    [("la", ⟨["vv"], ⟨[2], [50, 51]⟩, true, ⟨none, none, none⟩⟩),
     ("lo", ⟨["uu"], ⟨[3], [20, 21, 22]⟩, true, ⟨none, none, none⟩⟩)]⟩

/-- Witness for C10: with 1-D coordinate arrays the auto dispatch picks
the rectilinear builder, and `mesh_type = "points"` reaches the
point-cloud builder. -/
theorem claim_C10_witness :
    accessor_mesh daC10 (some "lo") (some "la") none none none none [] =
      rectilinear_mesh daC10 (some "lo") (some "la") none none none [] ∧
    accessor_mesh daC10 (some "lo") (some "la") none none none (some "points") [] =
      points_mesh daC10 (some "lo") (some "la") none none none [] := by
  have h := claim_C10 daC10 (some "lo") (some "la") none none none []
    (some "lo") (some "la") none 1 (by decide) (by decide)
  exact ⟨h.2.1 (by decide), h.2.2.2⟩


/-! ## C1 — cache invalidation and mesh-read idempotence -/

/-- A successful mesh computation always stores the returned mesh in the
mesh cache slot of the resulting state. -/
theorem computeMesh_ok_cache (calcF : CalcFn) (s s2 : SourceState) (m : PyMesh)
    (h : computeMesh calcF s = (Except.ok m, s2)) : s2.mesh_cache = some m := by
  unfold computeMesh at h
  repeat'
    first
      | split at h
      | dsimp only at h
  all_goals
    first
      | exact Except.noConfusion (congrArg Prod.fst h)
      | (injection h with h1 h2
         injection h1 with h1
         subst h1
         subst h2
         rfl)

/-- **C1** — Every property setter (data array, resolution, axis names,
time name, order, component, time index, z index, slicing, dataset,
extra arrays, derived-field table, pipeline) unconditionally clears all
three cached intermediates; and once a mesh read has succeeded, reading
again with no setter call in between returns the identical cached mesh
and leaves the state unchanged (no recomputation). -/
theorem claim_C1 (calcF : CalcFn) (c : SetterCall) (s s2 : SourceState) (m : PyMesh)
    (h : readMesh calcF s = (Except.ok m, s2)) :
    ((applySetter c s).sliced_cache = none ∧
     (applySetter c s).persisted_cache = none ∧
     (applySetter c s).mesh_cache = none) ∧
    readMesh calcF s2 = (Except.ok m, s2) := by
  constructor
  · cases c <;> exact ⟨rfl, rfl, rfl⟩
  · have hc : s2.mesh_cache = some m := by
      unfold readMesh at h
      split at h
      · rename_i m0 heq
        rw [Prod.mk.injEq] at h
        obtain ⟨h1, h2⟩ := h
        injection h1 with h1
        subst h2
        rw [← h1]
        exact heq
      · exact computeMesh_ok_cache calcF s s2 m h
    unfold readMesh
    rw [hc]

def calcFW : CalcFn := fun _ arrs => ⟨[arrs.length], List.replicate arrs.length 0⟩

def meshW : PyMesh := PyMesh.rect [0] [0] [0] [] []

def srcW : SourceState :=
  ⟨none, none, none, none, none, "C", none, none, none, 0, none, none, none,
   [], [], [], none, none, some meshW⟩

/-- Witness for C1: on a state holding a cached mesh, a time-index setter
clears all three caches, and a repeated mesh read returns the cached
mesh with the state unchanged. -/
theorem claim_C1_witness :
    (((applySetter (SetterCall.setTimeIndex 3) srcW).sliced_cache = none ∧
      (applySetter (SetterCall.setTimeIndex 3) srcW).persisted_cache = none ∧
      (applySetter (SetterCall.setTimeIndex 3) srcW).mesh_cache = none) ∧
     readMesh calcFW srcW = (Except.ok meshW, srcW)) :=
  claim_C1 calcFW (SetterCall.setTimeIndex 3) srcW srcW meshW rfl


end PvXarray
